import Mathlib

/-!
# Pahana Edu frontend: role-gated routing, session state and cart logic

A shallow embedding of the parts of the bookshop admin client that carry
logic: `ProtectedRoute`, the `authReducer`, the `authService` session
storage, the route table of `App`, the sale status options, the cart
operations of `ProductSelector`, the sale arithmetic and the discount
validator of `CreateSalePage`, the request methods of the services with
`handleApiError`, the `useProducts` hook and the paging of `DataTable`.

JavaScript values are embedded as follows: a property that may be
`undefined`/`null` is an `Option`, `localStorage` is an association list of
string keys and string values, an `async` function whose request may fail
takes the request's outcome as an `Except` argument, and a function that
touches `localStorage` or `window.location` passes the browser state
explicitly. Finite numbers are rationals; where a claim is stated for exact
arithmetic the operations are those of `ℚ`, and elsewhere the sum, product
and difference are a parameter.
-/

namespace PahanaEdu

/-! ## Constants (`utils/constants.js`) -/

namespace USER_ROLES
def ADMIN : String := "ADMIN"
def USER : String := "USER"
def CUSTOMER : String := "CUSTOMER"
def CASHIER : String := "CASHIER"
/-- The values of the `USER_ROLES` object, in declaration order. -/
def values : List String := [ADMIN, USER, CUSTOMER, CASHIER]
end USER_ROLES

/-! ## Users and the authentication state (`context/AuthContext.jsx`) -/

/-- A user object as the backend sends it. `role` and `tokenExpiry` are the
properties the client reads for its decisions; `fields` holds the remaining
string properties (username, email, ...). A missing property is `none`. -/
structure User where
  role : Option String
  tokenExpiry : Option Int
  fields : List (String × String)
deriving DecidableEq, Repr

/-- The reducer state: `initialState` and every state the reducer returns
have these four properties. -/
structure AuthState where
  user : Option User
  isAuthenticated : Bool
  isLoading : Bool
  error : Option String
deriving DecidableEq, Repr

def initialState : AuthState :=
  { user := none, isAuthenticated := false, isLoading := true, error := none }

/-! ## `ProtectedRoute` (`components/layout/ProtectedRoute.jsx`) -/

/-- Modelled from the spec: `hasPermission` of `utils/helpers`, which
`ProtectedRoute` imports and which is not among the sources. The spec says
route gating "compares a user's role string against a static allow-list per
route", so the helper is allow-list membership of the role; a missing role
(`user?.role` undefined) is a member of no list of role strings. -/
def hasPermission (userRole : Option String) (requiredRoles : List String) : Bool :=
  match userRole with
  | none => false
  | some r => requiredRoles.contains r

/-- What a `ProtectedRoute` element renders to. -/
inductive RouteView (α : Type) where
  /-- `<Loading fullScreen text=... />` -/
  | loading (text : String)
  /-- `<Navigate to=... state={{ from: location }} replace />`; `stateFrom`
  is `none` when no `state` prop is passed. -/
  | navigate (target : String) (stateFrom : Option String)
  /-- The inline "Access Denied" card listing the required roles. -/
  | accessDenied (requiredRoles : List String)
  /-- The wrapped page. -/
  | children (page : α)
deriving DecidableEq, Repr

/-- The props of `ProtectedRoute`, with the defaults of its parameter list. -/
structure ProtectedRouteProps (α : Type) where
  children : α
  requiredRoles : List String := []
  fallbackPath : String := "/login"
  showUnauthorized : Bool := false
deriving DecidableEq, Repr

/-- `ProtectedRoute`: `auth` is what `useAuth()` returns and `location` what
`useLocation()` returns. -/
def ProtectedRoute {α : Type} (auth : AuthState) (location : String)
    (props : ProtectedRouteProps α) : RouteView α :=
  if auth.isLoading then
    .loading "Checking authentication..."
  else if !auth.isAuthenticated then
    .navigate props.fallbackPath (some location)
  else if decide (props.requiredRoles.length > 0)
      && !hasPermission (auth.user.bind User.role) props.requiredRoles then
    if props.showUnauthorized then
      .accessDenied props.requiredRoles
    else
      .navigate "/dashboard" none
  else
    .children props.children

/-! ## `authReducer` (`context/AuthContext.jsx`) -/

/-- The payload of a `LOGIN_SUCCESS` action: an object with a `user`
property (`result.data.user`, which may be missing). -/
structure LoginSuccessPayload where
  user : Option User
deriving DecidableEq, Repr

/-- The actions the reducer switches on; `other` is any action whose `type`
is none of the seven cases. -/
inductive AuthAction where
  | SET_LOADING (payload : Bool)
  | LOGIN_SUCCESS (payload : LoginSuccessPayload)
  | LOGIN_FAILURE (payload : Option String)
  | LOGOUT
  | UPDATE_USER (payload : Option User)
  | SET_ERROR (payload : Option String)
  | CLEAR_ERROR
  | other (type : String)
deriving DecidableEq, Repr

def authReducer (state : AuthState) (action : AuthAction) : AuthState :=
  match action with
  | .SET_LOADING payload => { state with isLoading := payload }
  | .LOGIN_SUCCESS payload =>
    { state with user := payload.user, isAuthenticated := true, isLoading := false,
                 error := none }
  | .LOGIN_FAILURE payload =>
    { state with user := none, isAuthenticated := false, isLoading := false,
                 error := payload }
  | .LOGOUT =>
    { state with user := none, isAuthenticated := false, isLoading := false,
                 error := none }
  | .UPDATE_USER payload => { state with user := payload }
  | .SET_ERROR payload => { state with error := payload, isLoading := false }
  | .CLEAR_ERROR => { state with error := none }
  | .other _ => state

/-! ## Browser state: `localStorage` and `window.location` -/

/-- The `localStorage` area: string keys bound to string values. -/
abbrev Storage := List (String × String)

namespace Storage

/-- `localStorage.getItem(key)`: the value, or `null` for an absent key. -/
def getItem (ls : Storage) (key : String) : Option String :=
  ls.lookup key

/-- `localStorage.removeItem(key)`. -/
def removeItem (ls : Storage) (key : String) : Storage :=
  ls.filter (fun kv => kv.1 != key)

/-- `localStorage.setItem(key, value)`: the key is bound to the new value. -/
def setItem (ls : Storage) (key value : String) : Storage :=
  (key, value) :: removeItem ls key

end Storage

/-- The part of the browser the services touch. -/
structure Browser where
  localStorage : Storage
  href : String
deriving DecidableEq, Repr

/-- What the session code takes from the JavaScript engine. `stringify` is
`JSON.stringify` on a user object. `parse` is `JSON.parse` on the stored
text: `none` when it throws, `some none` when the text denotes `null`,
`some (some u)` when it denotes the user object `u`. `typeErrorMessage` is
the message of the `TypeError` thrown when a property of `undefined` is
read. -/
structure Engine where
  stringify : User → String
  parse : String → Option (Option User)
  typeErrorMessage : String

/-- `String(v)` of a possibly missing string, as `setItem` coerces it. -/
def jsString (v : Option String) : String :=
  v.getD "undefined"

/-- JavaScript truthiness of a possibly missing string. -/
def truthy (v : Option String) : Bool :=
  match v with
  | none => false
  | some s => s != ""

/-! ## Request errors and `handleApiError` (`services/api.js`) -/

/-- The body of an error response; `message` is its `message` property. -/
structure ErrorBody where
  message : Option String
  body : String
deriving DecidableEq, Repr

/-- The `response` property of an axios error. -/
structure ErrorResponse where
  status : Int
  data : Option ErrorBody
deriving DecidableEq, Repr

/-- An error caught by a service: `response` and `code` may be missing,
`request` tells whether `error.request` is set. -/
structure ApiError where
  response : Option ErrorResponse
  request : Bool
  message : String
  code : Option String
deriving DecidableEq, Repr

/-- The object `handleApiError` returns; `type` is present only for the
CORS case. -/
structure HandledError where
  message : String
  status : Int
  data : Option ErrorBody
  type : Option String
deriving DecidableEq, Repr

/-- `a || b` on strings: the first operand when it is truthy. -/
def orElseString (a : Option String) (b : String) : String :=
  match a with
  | some s => if s != "" then s else b
  | none => b

/-- `haystack.includes(needle)`. -/
def includes (haystack needle : String) : Bool :=
  haystack.toList.tails.any (fun t => needle.toList.isPrefixOf t)

def handleApiError (error : ApiError) : HandledError :=
  match error.response with
  | some response =>
    { message := orElseString (response.data.bind ErrorBody.message) "An error occurred",
      status := response.status,
      data := response.data,
      type := none }
  | none =>
    if error.request then
      if includes error.message "CORS" || error.code == some "ERR_NETWORK" then
        { message := "Backend server is not responding or CORS is not configured. Please ensure the backend server is running and CORS is enabled.",
          status := 0,
          data := none,
          type := some "CORS_ERROR" }
      else
        { message := "Network error - please check your connection and ensure the backend server is running",
          status := 0,
          data := none,
          type := none }
    else
      { message := orElseString (some error.message) "An unexpected error occurred",
        status := 0,
        data := none,
        type := none }

/-- Removal of the three session keys, as `clearAuthData`, the `finally`
block of `logout` and the 401 interceptor all do. -/
def removeSessionKeys (ls : Storage) : Storage :=
  Storage.removeItem (Storage.removeItem (Storage.removeItem ls "sessionId") "user") "userRole"

/-- The response interceptor of `api`: a 401 clears the session keys and
sends the browser to the login page; the outcome is passed on unchanged. -/
def responseInterceptor {ρ : Type} (outcome : Except ApiError ρ) (b : Browser) : Browser :=
  match outcome with
  | .ok _ => b
  | .error e =>
    if e.response.map ErrorResponse.status = some 401 then
      { localStorage := removeSessionKeys b.localStorage, href := "/login" }
    else b

/-! ## `authService` (`services/authService.js`) -/

/-- The body of a successful login response. -/
structure LoginResponseData where
  sessionId : Option String
  user : Option User
deriving DecidableEq, Repr

/-- The object a service method resolves to. -/
structure ServiceResult (δ : Type) where
  success : Bool
  data : Option δ
  message : String
  error : Option HandledError

/-- The `catch` branch shared by the service methods. -/
def ServiceResult.failure {δ : Type} (error : ApiError) : ServiceResult δ :=
  let apiError := handleApiError error
  { success := false, data := none, message := apiError.message, error := some apiError }

/-- A `TypeError` as the `catch` block sees it: no `response`, no `request`. -/
def typeError (engine : Engine) : ApiError :=
  { response := none, request := false, message := engine.typeErrorMessage, code := none }

namespace authService

/-- `authService.login`: `outcome` is how `api.post(LOGIN, credentials)`
settles before the response interceptor runs. With a truthy `sessionId` the
three keys are written in order; a missing `user` makes `user.role` throw
after the first two writes, and the `catch` branch reports the failure. -/
def login (engine : Engine) (outcome : Except ApiError LoginResponseData) (b : Browser) :
    ServiceResult LoginResponseData × Browser :=
  let b1 := responseInterceptor outcome b
  match outcome with
  | .error e => (ServiceResult.failure e, b1)
  | .ok data =>
    if truthy data.sessionId then
      let ls1 := Storage.setItem b1.localStorage "sessionId" (jsString data.sessionId)
      match data.user with
      | none =>
        let ls2 := Storage.setItem ls1 "user" "undefined"
        (ServiceResult.failure (typeError engine), { b1 with localStorage := ls2 })
      | some u =>
        let ls2 := Storage.setItem ls1 "user" (engine.stringify u)
        let ls3 := Storage.setItem ls2 "userRole" (jsString u.role)
        ({ success := true, data := some data, message := "Login successful", error := none },
          { b1 with localStorage := ls3 })
    else
      ({ success := true, data := some data, message := "Login successful", error := none }, b1)

/-- `authService.logout`: whatever the request does, the `finally` block
removes the session keys and sends the browser to the login page. -/
def logout (outcome : Except ApiError Unit) (b : Browser) : Browser :=
  let b1 := responseInterceptor outcome b
  { localStorage := removeSessionKeys b1.localStorage, href := "/login" }

/-- `authService.getCurrentUser`: an absent or empty entry gives `null`; a
text that does not parse is removed and gives `null`. -/
def getCurrentUser (engine : Engine) (b : Browser) : Option User × Browser :=
  match Storage.getItem b.localStorage "user" with
  | none => (none, b)
  | some userStr =>
    if userStr != "" then
      match engine.parse userStr with
      | some user => (user, b)
      | none => (none, { b with localStorage := Storage.removeItem b.localStorage "user" })
    else (none, b)

def getSessionId (b : Browser) : Option String :=
  Storage.getItem b.localStorage "sessionId"

/-- `authService.isAuthenticated`: `!!(sessionId && user)`. -/
def isAuthenticated (engine : Engine) (b : Browser) : Bool × Browser :=
  let sessionId := getSessionId b
  let (user, b1) := getCurrentUser engine b
  (truthy sessionId && user.isSome, b1)

/-- `authService.hasRole`: the truthiness of `user && user.role === role`. -/
def hasRole (engine : Engine) (b : Browser) (role : Option String) : Bool × Browser :=
  let (user, b1) := getCurrentUser engine b
  (match user with
    | none => false
    | some u => u.role == role, b1)

/-- `authService.hasAnyRole`: the truthiness of
`user && roles.includes(user.role)`. -/
def hasAnyRole (engine : Engine) (b : Browser) (roles : List String) : Bool × Browser :=
  let (user, b1) := getCurrentUser engine b
  (match user with
    | none => false
    | some u =>
      match u.role with
      | none => false
      | some r => roles.contains r, b1)

def clearAuthData (b : Browser) : Browser :=
  { b with localStorage := removeSessionKeys b.localStorage }

end authService

/-! ## `userService` helpers (`services/userService.js`) -/

namespace userService

def isAdmin (b : Browser) : Bool :=
  Storage.getItem b.localStorage "userRole" == some "ADMIN"

/-- `userService.requireAdmin`: throws unless `isAdmin()`. -/
def requireAdmin (b : Browser) : Except String Unit :=
  if !isAdmin b then .error "Admin access required" else .ok ()

end userService

/-! ## `AuthProvider.login` (`context/AuthContext.jsx`) -/

/-- `AuthProvider.login`: the dispatches applied to the reducer state in
order, the browser state after `authService.login`, and the `success`
property of the returned object. Toasts are not modelled. -/
def AuthProvider.login (engine : Engine) (outcome : Except ApiError LoginResponseData)
    (state : AuthState) (b : Browser) : Bool × AuthState × Browser :=
  let s1 := authReducer state (.SET_LOADING true)
  let s2 := authReducer s1 .CLEAR_ERROR
  let (result, b1) := authService.login engine outcome b
  if result.success then
    (true, authReducer s2 (.LOGIN_SUCCESS { user := result.data.bind LoginResponseData.user }), b1)
  else
    (false, authReducer s2 (.LOGIN_FAILURE (some result.message)), b1)

/-! ## Routes of `App` (`App.jsx`) and `NAVIGATION_ITEMS` -/

/-- The page components `App` mounts. -/
inductive Page where
  | LoginPage | DashboardPage | ProductsPage | BooksPage | StationaryPage
  | CustomersPage | CashiersPage | SalesPage | CreateSalePage | SaleDetailsPage
deriving DecidableEq, Repr

/-- The protected `<Route>` elements of `App`, in order: the path and the
props of the `ProtectedRoute` wrapping the page. -/
def App.protectedRoutes : List (String × ProtectedRouteProps Page) :=
  [ ("/dashboard", { children := .DashboardPage }),
    ("/products", { children := .ProductsPage,
                    requiredRoles := [USER_ROLES.ADMIN, USER_ROLES.USER, USER_ROLES.CASHIER] }),
    ("/books", { children := .BooksPage,
                 requiredRoles := [USER_ROLES.ADMIN, USER_ROLES.USER, USER_ROLES.CASHIER] }),
    ("/stationary", { children := .StationaryPage,
                      requiredRoles := [USER_ROLES.ADMIN, USER_ROLES.USER, USER_ROLES.CASHIER] }),
    ("/customers", { children := .CustomersPage,
                     requiredRoles := [USER_ROLES.ADMIN, USER_ROLES.CASHIER] }),
    ("/cashiers", { children := .CashiersPage,
                    requiredRoles := [USER_ROLES.ADMIN], showUnauthorized := true }),
    ("/sales", { children := .SalesPage,
                 requiredRoles := [USER_ROLES.ADMIN, USER_ROLES.USER, USER_ROLES.CASHIER] }),
    ("/sales/create", { children := .CreateSalePage,
                        requiredRoles := [USER_ROLES.ADMIN, USER_ROLES.USER, USER_ROLES.CASHIER] }),
    ("/sales/:id", { children := .SaleDetailsPage,
                     requiredRoles := [USER_ROLES.ADMIN, USER_ROLES.USER, USER_ROLES.CASHIER] }) ]

/-- The protected route declared for a literal path. -/
def App.routeFor (path : String) : Option (ProtectedRouteProps Page) :=
  App.protectedRoutes.lookup path

/-- An entry of `NAVIGATION_ITEMS`. -/
structure NavigationItem where
  name : String
  path : String
  icon : String
  roles : List String
deriving DecidableEq, Repr

def NAVIGATION_ITEMS : List NavigationItem :=
  [ { name := "Dashboard", path := "/dashboard", icon := "dashboard",
      roles := ["ADMIN", "USER", "CASHIER"] },
    { name := "Products", path := "/products", icon := "products",
      roles := ["ADMIN", "USER", "CASHIER"] },
    { name := "Books", path := "/books", icon := "book",
      roles := ["ADMIN", "USER", "CASHIER"] },
    { name := "Stationary", path := "/stationary", icon := "stationary",
      roles := ["ADMIN", "USER", "CASHIER"] },
    { name := "Customers", path := "/customers", icon := "users",
      roles := ["ADMIN", "CASHIER"] },
    { name := "Cashiers", path := "/cashiers", icon := "cashiers",
      roles := ["ADMIN"] },
    { name := "Sales", path := "/sales", icon := "sales",
      roles := ["ADMIN", "USER", "CASHIER"] },
    { name := "New Sale", path := "/sales/create", icon := "add_sale",
      roles := ["ADMIN", "USER", "CASHIER"] } ]

/-! ## `CustomersPage` and `CashiersPage` (`pages/`) -/

/-- What a page shows: its own "Access Denied" card or its content. -/
inductive PageView where
  | accessDenied (message : String)
  | content (page : Page)
deriving DecidableEq, Repr

/-- `CustomersPage`: the admin check in front of the customer table and the
register button. `hasRole` is the one of `useAuth`, which asks
`authService.hasRole`. -/
def CustomersPage (engine : Engine) (b : Browser) : PageView :=
  if !(authService.hasRole engine b (some "ADMIN")).1 then
    .accessDenied "You need administrator privileges to access customer management."
  else
    .content .CustomersPage

/-- `CashiersPage`: the same admin check in front of the cashier table. -/
def CashiersPage (engine : Engine) (b : Browser) : PageView :=
  if !(authService.hasRole engine b (some "ADMIN")).1 then
    .accessDenied "You need administrator privileges to access cashier management."
  else
    .content .CashiersPage

/-- Rendering of a mounted page; pages without a role check of their own
show their content. -/
def renderPage (engine : Engine) (b : Browser) (page : Page) : PageView :=
  match page with
  | .CustomersPage => CustomersPage engine b
  | .CashiersPage => CashiersPage engine b
  | p => .content p

/-- What `App` displays at a literal protected path: the `ProtectedRoute`
of the route with the rendered page as its children. -/
def App.display (engine : Engine) (auth : AuthState) (b : Browser) (path : String) :
    Option (RouteView PageView) :=
  (App.routeFor path).map fun props =>
    ProtectedRoute auth path
      { children := renderPage engine b props.children,
        requiredRoles := props.requiredRoles,
        fallbackPath := props.fallbackPath,
        showUnauthorized := props.showUnauthorized }

/-! ## Sale status options (`pages/SaleDetailsPage.jsx`) -/

namespace SALE_STATUS
def PENDING : String := "PENDING"
def COMPLETED : String := "COMPLETED"
def CANCELLED : String := "CANCELLED"
def REFUNDED : String := "REFUNDED"
/-- `Object.values(SALE_STATUS)`. -/
def values : List String := [PENDING, COMPLETED, CANCELLED, REFUNDED]
end SALE_STATUS

/-- An option of the status selector. -/
structure StatusOption where
  value : String
  label : String
deriving DecidableEq, Repr

def getAvailableStatusOptions (currentStatus : String) : List StatusOption :=
  let allStatuses := SALE_STATUS.values.map fun status => { value := status, label := status }
  if currentStatus = "PENDING" then
    allStatuses.filter fun s => ["COMPLETED", "CANCELLED"].contains s.value
  else if currentStatus = "COMPLETED" then
    allStatuses.filter fun s => ["REFUNDED"].contains s.value
  else
    []

/-- One offered status change: `next` is the value of an option offered for
`current`. -/
def offersChange (current next : String) : Prop :=
  next ∈ (getAvailableStatusOptions current).map StatusOption.value

instance (current next : String) : Decidable (offersChange current next) :=
  inferInstanceAs
    (Decidable (next ∈ (getAvailableStatusOptions current).map StatusOption.value))

/-! ## The cart of `ProductSelector` (`components/ui/ProductSelector.jsx`) -/

/-- A product of the catalog as `productService.getAllProducts` returns it. -/
structure Product where
  productId : String
  name : String
  productCode : String
  category : String
  price : ℚ
  quantity : Int
  status : String
deriving DecidableEq, Repr

/-- A line of the cart (`selectedItems`). -/
structure CartItem where
  productId : String
  productName : String
  productCode : String
  productCategory : String
  unitPrice : ℚ
  quantity : Int
deriving DecidableEq, Repr

/-- What a cart handler does before it returns. -/
inductive CartEffect where
  /-- It returns at once. -/
  | noEffect
  /-- It shows `toast.error(message)` and returns. -/
  | toastError (message : String)
  /-- It calls `onItemsChange(items)`. -/
  | itemsChange (items : List CartItem)
  /-- It throws: a property of `undefined` is read. -/
  | typeError
deriving DecidableEq, Repr

/-- The cart after a handler ran: `onItemsChange` is `setSelectedItems`, and
every other effect leaves `selectedItems` as it was. -/
def CartEffect.cartAfter (selectedItems : List CartItem) : CartEffect → List CartItem
  | .itemsChange items => items
  | _ => selectedItems

/-- `Array.prototype.findIndex`, with `none` for `-1`. -/
def findIndex {α : Type} (p : α → Bool) : List α → Option Nat
  | [] => none
  | a :: as => if p a then some 0 else (findIndex p as).map (· + 1)

/-- The copy of the cart with `quantity += 1` at one index. -/
def incrementAt : List CartItem → Nat → List CartItem
  | [], _ => []
  | item :: rest, 0 => { item with quantity := item.quantity + 1 } :: rest
  | item :: rest, i + 1 => item :: incrementAt rest i

def getSelectedQuantity (selectedItems : List CartItem) (productId : String) : Int :=
  match selectedItems.find? (fun item => item.productId == productId) with
  | some item => item.quantity
  | none => 0

def getAvailableStock (selectedItems : List CartItem) (product : Product) : Int :=
  let selectedQty := getSelectedQuantity selectedItems product.productId
  product.quantity - selectedQty

def addToCart (selectedItems : List CartItem) (product : Product) : CartEffect :=
  let currentQuantity := getSelectedQuantity selectedItems product.productId
  if currentQuantity ≥ product.quantity then
    .toastError ("Cannot add more items. Only " ++ toString product.quantity ++ " in stock.")
  else
    match findIndex (fun item => item.productId == product.productId) selectedItems with
    | some existingItemIndex => .itemsChange (incrementAt selectedItems existingItemIndex)
    | none =>
      .itemsChange (selectedItems ++ [{
        productId := product.productId,
        productName := product.name,
        productCode := product.productCode,
        productCategory := product.category,
        unitPrice := product.price,
        quantity := 1 }])

def removeFromCart (selectedItems : List CartItem) (productId : String) : CartEffect :=
  .itemsChange (selectedItems.filter fun item => item.productId != productId)

def updateQuantity (products : List Product) (selectedItems : List CartItem)
    (productId : String) (newQuantity : Int) : CartEffect :=
  if newQuantity < 0 then .noEffect
  else
    match products.find? (fun p => p.productId == productId) with
    | none => .typeError
    | some product =>
      if newQuantity > product.quantity then
        .toastError ("Cannot exceed stock limit of " ++ toString product.quantity)
      else if newQuantity = 0 then
        removeFromCart selectedItems productId
      else
        .itemsChange (selectedItems.map fun item =>
          if item.productId == productId then { item with quantity := newQuantity } else item)

/-- The stock quantity of the product with the given id in the loaded
product list. -/
def stockOf (products : List Product) (productId : String) : Option Int :=
  (products.find? (fun p => p.productId == productId)).map Product.quantity

/-- The cart property: every item has a product, and its quantity lies
between 1 and the stock quantity of that product. -/
def CartWithinStock (products : List Product) (selectedItems : List CartItem) : Prop :=
  ∀ item ∈ selectedItems,
    ∃ stock, stockOf products item.productId = some stock ∧
      1 ≤ item.quantity ∧ item.quantity ≤ stock

/-! ## Sale arithmetic and item formatting (`services/salesService.js`) -/

/-- `Array.prototype.join(separator)`. -/
def join (separator : String) : List String → String
  | [] => ""
  | [a] => a
  | a :: b :: rest => a ++ separator ++ join separator (b :: rest)

/-- `String.prototype.split(separator)` for a one-character separator. -/
def split (separator : Char) (s : String) : List String :=
  (s.toList.splitOn separator).map String.mk

/-- `parseFloat` of an argument that is already a number: the number itself
(exact arithmetic). -/
def parseFloatOfNumber (x : ℚ) : ℚ := x

/-- The value of a decimal digit character. -/
def digitValue (c : Char) : Nat := c.toNat - 48

/-- Reading decimal digits, most significant first, onto a start value. -/
def decodeDigits (cs : List Char) (start : Nat) : Nat :=
  cs.foldl (fun acc c => acc * 10 + digitValue c) start

namespace salesService

/-- The text of one item in the `items` string: `productId:quantity`. -/
def formatItem (item : CartItem) : String :=
  item.productId ++ ":" ++ toString item.quantity

def formatItemsForApi (items : List CartItem) : String :=
  join "," (items.map formatItem)

def calculateTotal (items : List CartItem) : ℚ :=
  items.foldl (fun total item => total + item.unitPrice * item.quantity) 0

/-- `calculateFinalAmount(subtotal, discount = 0)` for a numeric discount;
`none` is the omitted argument. -/
def calculateFinalAmount (subtotal : ℚ) (discount : Option ℚ) : ℚ :=
  max 0 (subtotal - parseFloatOfNumber (discount.getD 0))

end salesService

/-! ## `CreateSalePage` (`pages/CreateSalePage.jsx`) -/

/-- What a `validate` function of a form field returns: `true`, or the
message of the error. -/
inductive ValidationResult where
  | accepted
  | rejected (message : String)
deriving DecidableEq, Repr

/-- The number arithmetic of the engine on finite numbers, each of which is
a rational: the sum, the product and the difference of two numbers. In a
browser the three results are rounded to the nearest double; comparisons
and `Math.max` are exact. -/
structure Arithmetic where
  add : ℚ → ℚ → ℚ
  mul : ℚ → ℚ → ℚ
  sub : ℚ → ℚ → ℚ

/-- Arithmetic without rounding. -/
def exactArithmetic : Arithmetic :=
  { add := fun a b => a + b, mul := fun a b => a * b, sub := fun a b => a - b }

namespace CreateSalePage

def calculateSubtotal (arith : Arithmetic) (selectedItems : List CartItem) : ℚ :=
  selectedItems.foldl
    (fun total item => arith.add total (arith.mul item.unitPrice item.quantity)) 0

/-- `parseFloat(value) || 0`: `parseFloat` is the engine's function on the
text of the field, `none` standing for `NaN`. -/
def parsedDiscount (parseFloat : String → Option ℚ) (value : String) : ℚ :=
  (parseFloat value).getD 0

/-- `calculateFinalAmount`: `watchedDiscount` is the watched value of the
discount field. -/
def calculateFinalAmount (arith : Arithmetic) (parseFloat : String → Option ℚ)
    (selectedItems : List CartItem) (watchedDiscount : String) : ℚ :=
  let subtotal := calculateSubtotal arith selectedItems
  let discount := parsedDiscount parseFloat watchedDiscount
  max 0 (arith.sub subtotal discount)

/-- The `validate` function registered for the discount field; `subtotal`
is the subtotal of the render the function was created in. -/
def validateDiscount (parseFloat : String → Option ℚ) (subtotal : ℚ) (value : String) :
    ValidationResult :=
  let discount := parsedDiscount parseFloat value
  if discount < 0 then .rejected "Discount cannot be negative"
  else if discount > subtotal then .rejected "Discount cannot exceed subtotal"
  else .accepted

/-- `handleDiscountChange`: when the typed number exceeds the subtotal the
field is set to the subtotal (the result is the number written back, after
the toast); otherwise nothing happens. -/
def handleDiscountChange (arith : Arithmetic) (parseFloat : String → Option ℚ)
    (selectedItems : List CartItem) (value : String) : Option ℚ :=
  let subtotal := calculateSubtotal arith selectedItems
  match parseFloat value with
  | some typed => if typed > subtotal then some subtotal else none
  | none => none

end CreateSalePage

/-! ## HTTP requests of the services (`services/*.js`) -/

/-- The axios call a service method makes. -/
inductive HttpVerb where
  | GET | POST | PUT | PATCH | DELETE
deriving DecidableEq, Repr

/-- A plain object whose property values are texts, in property order. -/
abbrev JsObject := List (String × String)

/-- Reading a property: `undefined` when the object has no such property. -/
def getProp (object : JsObject) (key : String) : Option String :=
  object.lookup key

/-- Writing a property: an existing one keeps its place, a new one goes to
the end. -/
def setProp (object : JsObject) (key value : String) : JsObject :=
  if object.any (fun kv => kv.1 == key) then
    object.map fun kv => if kv.1 == key then (key, value) else kv
  else
    object ++ [(key, value)]

/-- The object spread `{ ...target, ...source }`. -/
def spread (target source : JsObject) : JsObject :=
  source.foldl (fun acc kv => setProp acc kv.1 kv.2) target

/-- `s.startsWith(p)`. -/
def startsWith (s p : String) : Bool :=
  p.toList.isPrefixOf s.toList

/-- One request: the verb, the URL handed to axios (`none` for `undefined`),
the `params` of the config and the body (for `delete`, the `data` of the
config). -/
structure HttpRequest (β : Type) where
  verb : HttpVerb
  url : Option String
  params : Option JsObject
  data : Option β
deriving DecidableEq, Repr

/-- A service method applied to its arguments: the one request it awaits,
and the object it resolves to for each way the request can settle. -/
structure ServiceCall (β δ : Type) where
  request : HttpRequest β
  resolve : Except ApiError δ → ServiceResult δ

/-- The `try`/`catch` of a method that returns `data: response.data`. -/
def resolveWithData {δ : Type} (successMessage : String) :
    Except ApiError δ → ServiceResult δ
  | .ok body => { success := true, data := some body, message := successMessage, error := none }
  | .error e => ServiceResult.failure e

/-- The `try`/`catch` of a method whose success object has no `data`. -/
def resolveWithoutData {δ : Type} (successMessage : String) :
    Except ApiError δ → ServiceResult δ
  | .ok _ => { success := true, data := none, message := successMessage, error := none }
  | .error e => ServiceResult.failure e

/-- An asynchronous computation against a backend. It is given how the
backend settles each request and the log of the requests sent so far; it
gives back the log with its own requests appended and either its value or
the error it throws. -/
abbrev Async (β δ α : Type) : Type :=
  (HttpRequest β → Except ApiError δ) → List (HttpRequest β) →
    Except ApiError α × List (HttpRequest β)

namespace Async

/-- The statement `return value`. -/
def pure {β δ α : Type} (value : α) : Async β δ α :=
  fun _ log => (.ok value, log)

/-- Sequencing: a throw in the first part skips the second. -/
def bind {β δ α γ : Type} (first : Async β δ α) (next : α → Async β δ γ) : Async β δ γ :=
  fun backend log =>
    match first backend log with
    | (.ok value, log1) => next value backend log1
    | (.error thrown, log1) => (.error thrown, log1)

/-- The expression `await api.verb(...)`: the request is sent; its value is
the response body, and a rejected request throws the error. -/
def request {β δ : Type} (req : HttpRequest β) : Async β δ δ :=
  fun backend log => (backend req, log ++ [req])

/-- The statement `try body catch (error) handler`. -/
def tryCatch {β δ α : Type} (body : Async β δ α) (handler : ApiError → Async β δ α) :
    Async β δ α :=
  fun backend log =>
    match body backend log with
    | (.ok value, log1) => (.ok value, log1)
    | (.error thrown, log1) => handler thrown backend log1

end Async

/-- The body the request methods of `productService` and `userService`
share: `try` to await the request of the method and return its success
object, `catch` the error and return the failure object built from
`handleApiError(error)`. -/
def ServiceCall.run {β δ : Type} (call : ServiceCall β δ) : Async β δ (ServiceResult δ) :=
  Async.tryCatch
    (Async.bind (Async.request call.request) fun body =>
      Async.pure (call.resolve (.ok body)))
    (fun error => Async.pure (call.resolve (.error error)))

/-- The `PRODUCTS` table of `API_ENDPOINTS` in `utils/constants.js`. -/
def API_ENDPOINTS.PRODUCTS : JsObject :=
  [ ("BASE", "/api/products"),
    ("BOOKS", "/api/products/books"),
    ("STATIONARY", "/api/products/stationary"),
    ("SEARCH", "/api/products/search"),
    ("LOW_STOCK", "/api/products/low-stock") ]

/-! ### `productService` (`services/productService.js`) -/

namespace productService

/-- The `PRODUCTS` table of the `API_ENDPOINTS` constant local to
`productService.js`, which the methods of this file read. -/
def API_ENDPOINTS.PRODUCTS : JsObject :=
  [ ("BASE", "/api/products"),
    ("BOOKS", "/api/products/books"),
    ("STATIONARY", "/api/products/stationary"),
    ("CREATE_BOOK", "/api/products/book"),
    ("CREATE_STATIONARY", "/api/products/stationary"),
    ("LOW_STOCK", "/api/products/lowstock") ]

/-- A table entry inside a template string. -/
def endpoint (key : String) : String :=
  jsString (getProp API_ENDPOINTS.PRODUCTS key)

def getAllProducts {δ : Type} (params : JsObject) : ServiceCall JsObject δ :=
  { request := { verb := .GET, url := getProp API_ENDPOINTS.PRODUCTS "BASE",
                 params := some params, data := none },
    resolve := resolveWithData "Products fetched successfully" }

def getProductById {δ : Type} (id : String) : ServiceCall JsObject δ :=
  { request := { verb := .GET, url := some (endpoint "BASE" ++ "/" ++ id),
                 params := none, data := none },
    resolve := resolveWithData "Product fetched successfully" }

def createBook {δ : Type} (bookData : JsObject) : ServiceCall JsObject δ :=
  { request := { verb := .POST, url := getProp API_ENDPOINTS.PRODUCTS "CREATE_BOOK",
                 params := none, data := some bookData },
    resolve := resolveWithData "Book created successfully" }

def createStationary {δ : Type} (stationaryData : JsObject) : ServiceCall JsObject δ :=
  { request := { verb := .POST, url := getProp API_ENDPOINTS.PRODUCTS "CREATE_STATIONARY",
                 params := none, data := some stationaryData },
    resolve := resolveWithData "Stationary created successfully" }

def updateProduct {δ : Type} (id : String) (productData : JsObject) : ServiceCall JsObject δ :=
  { request := { verb := .PUT, url := some (endpoint "BASE" ++ "/" ++ id),
                 params := none, data := some productData },
    resolve := resolveWithData "Product updated successfully" }

def deleteProduct {δ : Type} (id : String) : ServiceCall JsObject δ :=
  { request := { verb := .DELETE, url := some (endpoint "BASE" ++ "/" ++ id),
                 params := none, data := none },
    resolve := resolveWithoutData "Product deleted successfully" }

def getBooks {δ : Type} (params : JsObject) : ServiceCall JsObject δ :=
  { request := { verb := .GET, url := getProp API_ENDPOINTS.PRODUCTS "BOOKS",
                 params := some params, data := none },
    resolve := resolveWithData "Books fetched successfully" }

def getStationary {δ : Type} (params : JsObject) : ServiceCall JsObject δ :=
  { request := { verb := .GET, url := getProp API_ENDPOINTS.PRODUCTS "STATIONARY",
                 params := some params, data := none },
    resolve := resolveWithData "Stationary items fetched successfully" }

/-- `searchProducts(query, filters)`: the URL is the `SEARCH` entry of the
local table. -/
def searchProducts {δ : Type} (query : String) (filters : JsObject) : ServiceCall JsObject δ :=
  let params := spread [("q", query)] filters
  { request := { verb := .GET, url := getProp API_ENDPOINTS.PRODUCTS "SEARCH",
                 params := some params, data := none },
    resolve := resolveWithData "Search completed successfully" }

/-- `getLowStockProducts(threshold = 5)`; `none` is the omitted argument. -/
def getLowStockProducts {δ : Type} (threshold : Option Int) : ServiceCall JsObject δ :=
  { request := { verb := .GET,
                 url := some (endpoint "LOW_STOCK" ++ "?threshold=" ++ toString (threshold.getD 5)),
                 params := none, data := none },
    resolve := resolveWithData "Low stock products fetched successfully" }

def getBooksByGenre {δ : Type} (genre : String) : ServiceCall JsObject δ :=
  { request := { verb := .GET, url := some (endpoint "BOOKS" ++ "/genre/" ++ genre),
                 params := none, data := none },
    resolve := resolveWithData "Books by genre fetched successfully" }

def getBooksByAuthor {δ : Type} (author : String) : ServiceCall JsObject δ :=
  { request := { verb := .GET, url := some (endpoint "BOOKS" ++ "/author/" ++ author),
                 params := none, data := none },
    resolve := resolveWithData "Books by author fetched successfully" }

def getStationaryByType {δ : Type} (type : String) : ServiceCall JsObject δ :=
  { request := { verb := .GET, url := some (endpoint "STATIONARY" ++ "/type/" ++ type),
                 params := none, data := none },
    resolve := resolveWithData "Stationary by type fetched successfully" }

def getStationaryByBrand {δ : Type} (brand : String) : ServiceCall JsObject δ :=
  { request := { verb := .GET, url := some (endpoint "STATIONARY" ++ "/brand/" ++ brand),
                 params := none, data := none },
    resolve := resolveWithData "Stationary by brand fetched successfully" }

def updateStock {δ : Type} (id : String) (quantity : Int) : ServiceCall JsObject δ :=
  { request := { verb := .PATCH, url := some (endpoint "BASE" ++ "/" ++ id ++ "/stock"),
                 params := none, data := some [("quantity", toString quantity)] },
    resolve := resolveWithData "Stock updated successfully" }

/-- `bulkUpdateProducts(updates)`; `updates` is the text of the array. -/
def bulkUpdateProducts {δ : Type} (updates : String) : ServiceCall JsObject δ :=
  { request := { verb := .PATCH, url := some (endpoint "BASE" ++ "/bulk"),
                 params := none, data := some [("updates", updates)] },
    resolve := resolveWithData "Bulk update completed successfully" }

/-- `bulkDeleteProducts(ids)`; `ids` is the text of the array. -/
def bulkDeleteProducts {δ : Type} (ids : String) : ServiceCall JsObject δ :=
  { request := { verb := .DELETE, url := some (endpoint "BASE" ++ "/bulk"),
                 params := none, data := some [("ids", ids)] },
    resolve := resolveWithoutData "Products deleted successfully" }

/-- The property names of the `productService` object, in order. -/
def methodNames : List String :=
  [ "getAllProducts", "getProductById", "createBook", "createStationary", "updateProduct",
    "deleteProduct", "getBooks", "getStationary", "searchProducts", "getLowStockProducts",
    "getBooksByGenre", "getBooksByAuthor", "getStationaryByType", "getStationaryByBrand",
    "updateStock", "bulkUpdateProducts", "bulkDeleteProducts" ]

/-- `productService.createProduct`: the object has no property of this name
(its create methods are `createBook` and `createStationary`), so the
expression is `undefined`. -/
def createProduct {δ : Type} : Option (JsObject → ServiceCall JsObject δ) :=
  none

end productService

/-- A request method of `productService` together with its arguments. -/
inductive ProductCall where
  | getAllProducts (params : JsObject)
  | getProductById (id : String)
  | createBook (bookData : JsObject)
  | createStationary (stationaryData : JsObject)
  | updateProduct (id : String) (productData : JsObject)
  | deleteProduct (id : String)
  | getBooks (params : JsObject)
  | getStationary (params : JsObject)
  | searchProducts (query : String) (filters : JsObject)
  | getLowStockProducts (threshold : Option Int)
  | getBooksByGenre (genre : String)
  | getBooksByAuthor (author : String)
  | getStationaryByType (type : String)
  | getStationaryByBrand (brand : String)
  | updateStock (id : String) (quantity : Int)
  | bulkUpdateProducts (updates : String)
  | bulkDeleteProducts (ids : String)
deriving DecidableEq, Repr

/-- The method a `ProductCall` names, applied to its arguments. -/
def productService.call {δ : Type} : ProductCall → ServiceCall JsObject δ
  | .getAllProducts params => productService.getAllProducts params
  | .getProductById id => productService.getProductById id
  | .createBook bookData => productService.createBook bookData
  | .createStationary stationaryData => productService.createStationary stationaryData
  | .updateProduct id productData => productService.updateProduct id productData
  | .deleteProduct id => productService.deleteProduct id
  | .getBooks params => productService.getBooks params
  | .getStationary params => productService.getStationary params
  | .searchProducts query filters => productService.searchProducts query filters
  | .getLowStockProducts threshold => productService.getLowStockProducts threshold
  | .getBooksByGenre genre => productService.getBooksByGenre genre
  | .getBooksByAuthor author => productService.getBooksByAuthor author
  | .getStationaryByType type => productService.getStationaryByType type
  | .getStationaryByBrand brand => productService.getStationaryByBrand brand
  | .updateStock id quantity => productService.updateStock id quantity
  | .bulkUpdateProducts updates => productService.bulkUpdateProducts updates
  | .bulkDeleteProducts ids => productService.bulkDeleteProducts ids

/-! ### Request methods of `userService` (`services/userService.js`) -/

namespace userService

/-- The `AUTH` table of the `API_ENDPOINTS` constant local to
`userService.js`. -/
def API_ENDPOINTS.AUTH : JsObject :=
  [ ("REGISTER_CUSTOMER", "/api/auth/register/customer"),
    ("REGISTER_CASHIER", "/api/auth/register/cashier") ]

def registerCustomer {δ : Type} (customerData : JsObject) : ServiceCall JsObject δ :=
  { request := { verb := .POST, url := getProp API_ENDPOINTS.AUTH "REGISTER_CUSTOMER",
                 params := none, data := some customerData },
    resolve := resolveWithData "Customer registered successfully" }

def registerCashier {δ : Type} (cashierData : JsObject) : ServiceCall JsObject δ :=
  { request := { verb := .POST, url := getProp API_ENDPOINTS.AUTH "REGISTER_CASHIER",
                 params := none, data := some cashierData },
    resolve := resolveWithData "Cashier registered successfully" }

end userService

/-- A request method of `userService` together with its argument. -/
inductive UserCall where
  | registerCustomer (customerData : JsObject)
  | registerCashier (cashierData : JsObject)
deriving DecidableEq, Repr

/-- The method a `UserCall` names, applied to its argument. -/
def userService.call {δ : Type} : UserCall → ServiceCall JsObject δ
  | .registerCustomer customerData => userService.registerCustomer customerData
  | .registerCashier cashierData => userService.registerCashier cashierData

/-! ### `salesService.createSale` and `CreateSalePage.onSubmit` -/

/-- A toast shown to the user. -/
inductive Toast where
  | success (message : String)
  | error (message : String)
deriving DecidableEq, Repr

/-- `a || null` on a text: `null` for the empty text. -/
def orNull (a : String) : Option String :=
  if a != "" then some a else none

/-- The values of the sale form (`formData`). -/
structure SaleFormData where
  customerName : String
  customerId : String
  paymentMethod : String
  discount : String
  notes : String
deriving DecidableEq, Repr

/-- The sale object handed to `createSale` and posted to the backend;
`customerId` may be `null`. -/
structure SaleData where
  customerName : String
  customerId : Option String
  items : String
  paymentMethod : String
  discount : String
  notes : String
deriving DecidableEq, Repr

/-- The properties of the created sale the page reads. -/
structure SaleCreated where
  saleNumber : String
  saleId : String
deriving DecidableEq, Repr

/-- The object a `salesService` request method resolves to: it has no
`message`. -/
structure SalesResult (δ : Type) where
  success : Bool
  data : Option δ
  error : Option HandledError

/-- A `salesService` method applied to its arguments. -/
structure SalesCall (β δ : Type) where
  request : HttpRequest β
  resolve : Except ApiError δ → SalesResult δ

/-- `salesService.createSale`: one POST to `API_ENDPOINTS.SALES.CREATE` with
the defaults filled in. -/
def salesService.createSale {δ : Type} (saleData : SaleData) : SalesCall SaleData δ :=
  { request :=
      { verb := .POST, url := some "/api/sales", params := none,
        data := some
          { customerId := saleData.customerId.bind orNull,
            customerName := saleData.customerName,
            items := saleData.items,
            paymentMethod := orElseString (some saleData.paymentMethod) "CASH",
            discount := orElseString (some saleData.discount) "0.00",
            notes := orElseString (some saleData.notes) "" } },
    resolve := fun outcome =>
      match outcome with
      | .ok body => { success := true, data := some body, error := none }
      | .error e => { success := false, data := none, error := some (handleApiError e) } }

/-- What one run of `onSubmit` does, in order of occurrence per kind: the
toasts, the calls of `setCreating`, of `setSelectedItems`, of
`salesService.createSale` and of `navigate`. -/
structure SubmitEffects where
  toasts : List Toast
  setCreating : List Bool
  setSelectedItems : List (List CartItem)
  createSale : List SaleData
  navigate : List String
deriving DecidableEq, Repr

/-- `CreateSalePage.onSubmit`: `outcome` is how the request of `createSale`
settles. -/
def CreateSalePage.onSubmit (selectedItems : List CartItem) (formData : SaleFormData)
    (outcome : Except ApiError SaleCreated) : SubmitEffects :=
  if selectedItems.length = 0 then
    { toasts := [.error "Please select at least one product"], setCreating := [],
      setSelectedItems := [], createSale := [], navigate := [] }
  else
    let itemsString := salesService.formatItemsForApi selectedItems
    let saleData : SaleData :=
      { customerName := formData.customerName,
        customerId := orNull formData.customerId,
        items := itemsString,
        paymentMethod := formData.paymentMethod,
        discount := orElseString (some formData.discount) "0.00",
        notes := formData.notes }
    let result := (salesService.createSale saleData).resolve outcome
    if result.success then
      match result.data with
      | some created =>
        { toasts := [.success ("Sale created successfully! Sale #" ++ created.saleNumber)],
          setCreating := [true, false], setSelectedItems := [], createSale := [saleData],
          navigate := ["/sales/" ++ created.saleId] }
      | none =>
        { toasts := [.error "Failed to create sale"], setCreating := [true, false],
          setSelectedItems := [], createSale := [saleData], navigate := [] }
    else
      match result.error with
      | some apiError =>
        { toasts := [.error apiError.message], setCreating := [true, false],
          setSelectedItems := [], createSale := [saleData], navigate := [] }
      | none =>
        { toasts := [.error "Failed to create sale"], setCreating := [true, false],
          setSelectedItems := [], createSale := [saleData], navigate := [] }

/-! ### `useProducts.createProduct` (`hooks/useProducts.jsx`) -/

/-- The object `useProducts.createProduct` resolves to. -/
structure HookResult where
  success : Bool
  message : Option String
deriving DecidableEq, Repr

/-- What one run of `useProducts.createProduct` does: the toast, the
requests sent through `productService`, whether `fetchProducts` was called,
and the returned object. -/
structure CreateProductEffects where
  toasts : List Toast
  requests : List (HttpRequest JsObject)
  refetched : Bool
  result : HookResult
deriving DecidableEq, Repr

/-- `useProducts.createProduct`: calling the missing
`productService.createProduct` throws inside the `try`, and the `catch`
reports the failure; were the method there, `outcome` would be how its
request settles. -/
def useProducts.createProduct {δ : Type} (productData : JsObject)
    (outcome : Except ApiError δ) : CreateProductEffects :=
  match (productService.createProduct : Option (JsObject → ServiceCall JsObject δ)) with
  | none =>
    { toasts := [.error "Failed to create product"], requests := [], refetched := false,
      result := { success := false, message := some "Failed to create product" } }
  | some method =>
    let call := method productData
    let result := call.resolve outcome
    if result.success then
      { toasts := [.success "Product created successfully"], requests := [call.request],
        refetched := true, result := { success := true, message := none } }
    else
      { toasts := [.error result.message], requests := [call.request], refetched := false,
        result := { success := false, message := some result.message } }

/-! ## `DataTable` paging and the sales table (`components/ui/DataTable.jsx`) -/

/-- The value of the `pagination` prop: a boolean, or an object with
`enabled` and `pageSize` properties. -/
inductive PaginationProp where
  | flag (value : Bool)
  | config (enabled : Bool) (pageSize : Nat)
deriving DecidableEq, Repr

/-- Truthiness of the prop: an object is truthy whatever it holds. -/
def PaginationProp.truthy : PaginationProp → Bool
  | .flag value => value
  | .config _ _ => true

/-- The props of `DataTable` that decide the paging, with the defaults of
its parameter list. -/
structure DataTableProps (ρ : Type) where
  data : List ρ := []
  loading : Bool := false
  emptyMessage : String := "No data available"
  pagination : PaginationProp := .flag true
  pageSize : Nat := 10

/-- `array.slice(start, stop)` for indices within the natural numbers. -/
def slice {ρ : Type} (rows : List ρ) (start stop : Nat) : List ρ :=
  (rows.take stop).drop start

namespace DataTable

/-- `Math.ceil(sortedData.length / pageSize)`, before any column is chosen
for sorting (`sortedData` is `data`). -/
def totalPages {ρ : Type} (props : DataTableProps ρ) : Nat :=
  Nat.ceil ((props.data.length : ℚ) / (props.pageSize : ℚ))

/-- The rows of the page `currentPage`, before any column is chosen for
sorting. -/
def paginatedData {ρ : Type} (props : DataTableProps ρ) (currentPage : Nat) : List ρ :=
  let startIndex := (currentPage - 1) * props.pageSize
  if props.pagination.truthy then
    slice props.data startIndex (startIndex + props.pageSize)
  else
    props.data

end DataTable

/-- The props `SalesPage` hands to its `DataTable`. -/
def SalesPage.tableProps {ρ : Type} (filteredSales : List ρ) (loading : Bool) :
    DataTableProps ρ :=
  { data := filteredSales, loading := loading, emptyMessage := "No sales found",
    pagination := .config true 20 }

/-! ## Route admission and sample data -/

/-- A route admits a role when its `ProtectedRoute` renders the children for
every authenticated, loaded user with that role. -/
def RouteAdmits {α : Type} (props : ProtectedRouteProps α) (role : String) : Prop :=
  ∀ (auth : AuthState) (location : String),
    auth.isLoading = false → auth.isAuthenticated = true →
    auth.user.bind User.role = some role →
    ProtectedRoute auth location props = .children props.children

/-- A user with nothing but a role. -/
def userWithRole (role : String) : User :=
  { role := some role, tokenExpiry := none, fields := [] }

/-- The reducer state of a logged-in user. -/
def loggedInAs (user : User) : AuthState :=
  { user := some user, isAuthenticated := true, isLoading := false, error := none }

/-- The reducer state after a logout. -/
def loggedOut : AuthState :=
  { user := none, isAuthenticated := false, isLoading := false, error := none }

/-- A small engine for evaluating the session code on concrete data: the
text of a user is its role behind a fixed tag, and only the texts of the
four role-only users and of `null` parse. -/
def sampleEngine : Engine :=
  { stringify := fun u => "role=" ++ jsString u.role,
    parse := fun s =>
      if s = "role=ADMIN" then some (some (userWithRole "ADMIN"))
      else if s = "role=USER" then some (some (userWithRole "USER"))
      else if s = "role=CASHIER" then some (some (userWithRole "CASHIER"))
      else if s = "role=CUSTOMER" then some (some (userWithRole "CUSTOMER"))
      else if s = "null" then some none
      else none,
    typeErrorMessage := "Cannot read properties of undefined" }

/-- A browser with an empty `localStorage`, on the login page. -/
def freshBrowser : Browser :=
  { localStorage := [], href := "/login" }

/-- A one-product catalog: two notebooks in stock. -/
def sampleProducts : List Product :=
  [ { productId := "P-1", name := "Notebook", productCode := "NB-1", category := "STATIONARY",
      price := 120, quantity := 2, status := "AVAILABLE" } ]

/-- A cart holding both notebooks of `sampleProducts`. -/
def sampleCart : List CartItem :=
  [ { productId := "P-1", productName := "Notebook", productCode := "NB-1",
      productCategory := "STATIONARY", unitPrice := 120, quantity := 2 } ]

/-- A table standing for `parseFloat` on the texts the examples type into
the discount field; every other text gives `NaN`. -/
def sampleParseFloat (value : String) : Option ℚ :=
  if value = "0" then some 0
  else if value = "40" then some 40
  else if value = "240" then some 240
  else if value = "300" then some 300
  else if value = "-5" then some (-5)
  else none

/-- A cart with one credit line: a negative unit price, so a negative
subtotal. -/
def creditCart : List CartItem :=
  [ { productId := "C-1", productName := "Credit note", productCode := "CR-1",
      productCategory := "STATIONARY", unitPrice := -10, quantity := 1 } ]

/-- A filled-in sale form for a walk-in customer. -/
def sampleForm : SaleFormData :=
  { customerName := "Walk-in", customerId := "", paymentMethod := "CASH", discount := "40",
    notes := "" }

/-- A 404 answer of the backend with a message. -/
def sampleNotFound : ApiError :=
  { response := some { status := 404,
                       data := some { message := some "Product not found", body := "" } },
    request := true, message := "Request failed with status code 404",
    code := some "ERR_BAD_REQUEST" }

/-- A request that got no answer. -/
def sampleNetworkError : ApiError :=
  { response := none, request := true, message := "Network Error", code := some "ERR_NETWORK" }

/-! ## Theorems -/

/-- The allow-list check succeeds exactly for a present role that is a member
of the list. -/
theorem hasPermission_iff (userRole : Option String) (requiredRoles : List String) :
    hasPermission userRole requiredRoles = true ↔
      ∃ r, userRole = some r ∧ r ∈ requiredRoles := by
  cases userRole with
  | none => simp [hasPermission]
  | some r => simp [hasPermission]

/-- For an authenticated, loaded user the route renders its children exactly
when the required list is empty or holds the user's role. -/
theorem ProtectedRoute_children_iff_of_authenticated {α : Type} (auth : AuthState)
    (location : String) (props : ProtectedRouteProps α)
    (hl : auth.isLoading = false) (ha : auth.isAuthenticated = true) :
    ProtectedRoute auth location props = .children props.children ↔
      (props.requiredRoles = [] ∨
        ∃ r, auth.user.bind User.role = some r ∧ r ∈ props.requiredRoles) := by
  have hp := hasPermission_iff (auth.user.bind User.role) props.requiredRoles
  unfold ProtectedRoute
  simp only [hl, ha, Bool.false_eq_true, if_false, Bool.not_true]
  cases hreq : props.requiredRoles with
  | nil => simp
  | cons x xs =>
    rw [hreq] at hp
    cases hb : hasPermission (auth.user.bind User.role) (x :: xs) with
    | false =>
      rw [hb] at hp
      have hno : ¬ ∃ r, auth.user.bind User.role = some r ∧ r ∈ x :: xs :=
        fun h => Bool.false_ne_true (hp.mpr h)
      cases props.showUnauthorized
      · simpa using hno
      · simpa using hno
    | true =>
      rw [hb] at hp
      have hyes := hp.mp rfl
      simp only [List.length_cons, Bool.not_true, Bool.and_false, Bool.false_eq_true,
        if_false, true_iff]
      exact Or.inr hyes

/-- C1: for every authenticated user (not loading) and every non-empty
`requiredRoles`, `ProtectedRoute` renders its children if and only if the
user's role string is a member of `requiredRoles`; when `requiredRoles` is
empty the children are rendered for every role, a missing role included. -/
theorem C1_protectedRoute_renders_iff_role_allowed {α : Type} (auth : AuthState)
    (location : String) (props : ProtectedRouteProps α)
    (hl : auth.isLoading = false) (ha : auth.isAuthenticated = true) :
    (props.requiredRoles ≠ [] →
      (ProtectedRoute auth location props = .children props.children ↔
        ∃ r, auth.user.bind User.role = some r ∧ r ∈ props.requiredRoles)) ∧
    (props.requiredRoles = [] →
      ProtectedRoute auth location props = .children props.children) := by
  have h := ProtectedRoute_children_iff_of_authenticated auth location props hl ha
  constructor
  · intro hne
    rw [h]
    constructor
    · rintro (h0 | h1)
      · exact absurd h0 hne
      · exact h1
    · intro h1
      exact Or.inr h1
  · intro he
    exact h.mpr (Or.inl he)

/-- The instance of C1 at the `/cashiers` route for a logged-in cashier: the
list is non-empty and does not hold the role, so the page is not rendered. -/
theorem C1_protectedRoute_renders_iff_role_allowed_witness :
    (loggedInAs (userWithRole "CASHIER")).isLoading = false ∧
    (loggedInAs (userWithRole "CASHIER")).isAuthenticated = true ∧
    ((({ children := Page.CashiersPage, requiredRoles := ["ADMIN"],
          showUnauthorized := true } : ProtectedRouteProps Page).requiredRoles ≠ [] →
      (ProtectedRoute (loggedInAs (userWithRole "CASHIER")) "/cashiers"
          { children := Page.CashiersPage, requiredRoles := ["ADMIN"],
            showUnauthorized := true }
          = .children Page.CashiersPage ↔
        ∃ r, (loggedInAs (userWithRole "CASHIER")).user.bind User.role = some r ∧
          r ∈ ["ADMIN"])) ∧
    (({ children := Page.CashiersPage, requiredRoles := ["ADMIN"],
          showUnauthorized := true } : ProtectedRouteProps Page).requiredRoles = [] →
      ProtectedRoute (loggedInAs (userWithRole "CASHIER")) "/cashiers"
          { children := Page.CashiersPage, requiredRoles := ["ADMIN"],
            showUnauthorized := true }
          = .children Page.CashiersPage)) :=
  ⟨rfl, rfl,
    C1_protectedRoute_renders_iff_role_allowed (loggedInAs (userWithRole "CASHIER"))
      "/cashiers"
      { children := Page.CashiersPage, requiredRoles := ["ADMIN"], showUnauthorized := true }
      rfl rfl⟩

/-- C2: `ProtectedRoute` never renders its children when the user is not
authenticated or the state is loading, whatever the role and the required
roles: while loading it renders the loading view, and when not loading and
not authenticated it redirects to `fallbackPath`, whose default is
`/login`. -/
theorem C2_protectedRoute_never_renders_unauthenticated {α : Type} (auth : AuthState)
    (location : String) (props : ProtectedRouteProps α) :
    (auth.isLoading = true →
      ProtectedRoute auth location props = .loading "Checking authentication...") ∧
    (auth.isLoading = false → auth.isAuthenticated = false →
      ProtectedRoute auth location props = .navigate props.fallbackPath (some location)) ∧
    (auth.isAuthenticated = false ∨ auth.isLoading = true →
      ∀ page : α, ProtectedRoute auth location props ≠ .children page) ∧
    (∀ page : α, ({ children := page } : ProtectedRouteProps α).fallbackPath = "/login") := by
  refine ⟨?_, ?_, ?_, fun _ => rfl⟩
  · intro hl
    simp [ProtectedRoute, hl]
  · intro hl ha
    simp [ProtectedRoute, hl, ha]
  · intro h page
    cases hl : auth.isLoading with
    | true => simp [ProtectedRoute, hl]
    | false =>
      have ha : auth.isAuthenticated = false := by
        rcases h with h | h
        · exact h
        · rw [hl] at h; exact absurd h Bool.false_ne_true
      simp [ProtectedRoute, hl, ha]

/-- The instance of C2 at the `/sales` route: the initial (loading) state
gives the loading view, the logged-out state a redirect to `/login`, and
neither renders the page. -/
theorem C2_protectedRoute_never_renders_unauthenticated_witness :
    ProtectedRoute initialState "/sales"
        { children := Page.SalesPage, requiredRoles := ["ADMIN", "USER", "CASHIER"] }
      = .loading "Checking authentication..." ∧
    ProtectedRoute loggedOut "/sales"
        { children := Page.SalesPage, requiredRoles := ["ADMIN", "USER", "CASHIER"] }
      = .navigate "/login" (some "/sales") ∧
    ProtectedRoute loggedOut "/sales"
        { children := Page.SalesPage, requiredRoles := ["ADMIN", "USER", "CASHIER"] }
      ≠ .children Page.SalesPage :=
  ⟨(C2_protectedRoute_never_renders_unauthenticated initialState "/sales"
      { children := Page.SalesPage, requiredRoles := ["ADMIN", "USER", "CASHIER"] }).1 rfl,
   (C2_protectedRoute_never_renders_unauthenticated loggedOut "/sales"
      { children := Page.SalesPage, requiredRoles := ["ADMIN", "USER", "CASHIER"] }).2.1 rfl rfl,
   (C2_protectedRoute_never_renders_unauthenticated loggedOut "/sales"
      { children := Page.SalesPage, requiredRoles := ["ADMIN", "USER", "CASHIER"] }).2.2.1
      (Or.inl rfl) Page.SalesPage⟩

/-- C5: for every prior state and every payload, the reducer's result for
`LOGIN_SUCCESS` has the payload's user, is authenticated, is not loading and
has no error. -/
theorem C5_authReducer_login_success (s : AuthState) (p : LoginSuccessPayload) :
    (authReducer s (.LOGIN_SUCCESS p)).user = p.user ∧
    (authReducer s (.LOGIN_SUCCESS p)).isAuthenticated = true ∧
    (authReducer s (.LOGIN_SUCCESS p)).isLoading = false ∧
    (authReducer s (.LOGIN_SUCCESS p)).error = none :=
  ⟨rfl, rfl, rfl, rfl⟩

/-- C6: for every prior state, `LOGOUT` and `LOGIN_FAILURE` both give a
state with no user, not authenticated and not loading; the error is `null`
after `LOGOUT` and the action payload after `LOGIN_FAILURE`. -/
theorem C6_authReducer_logout_and_login_failure (s : AuthState) (payload : Option String) :
    (authReducer s .LOGOUT).user = none ∧
    (authReducer s .LOGOUT).isAuthenticated = false ∧
    (authReducer s .LOGOUT).isLoading = false ∧
    (authReducer s .LOGOUT).error = none ∧
    (authReducer s (.LOGIN_FAILURE payload)).user = none ∧
    (authReducer s (.LOGIN_FAILURE payload)).isAuthenticated = false ∧
    (authReducer s (.LOGIN_FAILURE payload)).isLoading = false ∧
    (authReducer s (.LOGIN_FAILURE payload)).error = payload :=
  ⟨rfl, rfl, rfl, rfl, rfl, rfl, rfl, rfl⟩

/-- The answer of `hasRole` in terms of the stored user. -/
theorem hasRole_fst (engine : Engine) (b : Browser) (role : Option String) :
    (authService.hasRole engine b role).1 =
      match (authService.getCurrentUser engine b).1 with
      | none => false
      | some u => u.role == role := by
  unfold authService.hasRole
  cases authService.getCurrentUser engine b with
  | mk user b1 => cases user <;> rfl

/-- The session a cashier has after a successful login on a fresh browser:
the reducer state and the browser state `AuthProvider.login` leaves. -/
theorem cashier_login_session :
    AuthProvider.login sampleEngine
        (.ok { sessionId := some "s-1", user := some (userWithRole "CASHIER") })
        initialState freshBrowser
      = (true, loggedInAs (userWithRole "CASHIER"),
          { localStorage := [("userRole", "CASHIER"), ("user", "role=CASHIER"),
                             ("sessionId", "s-1")],
            href := "/login" }) := by
  decide

/-- C3 (the code departs from the claim): for an authenticated user whose
role is CASHIER, the `/customers` route passes its allow-list and mounts
`CustomersPage`, and the page's own admin check then shows its
"Access Denied" card instead of the customer table. -/
theorem C3_customers_shows_access_denied_to_cashier (engine : Engine) (auth : AuthState)
    (b : Browser) (u : User)
    (hl : auth.isLoading = false) (ha : auth.isAuthenticated = true)
    (hu : auth.user = some u) (hrole : u.role = some "CASHIER")
    (hstored : (authService.getCurrentUser engine b).1 = some u) :
    App.display engine auth b "/customers" =
      some (.children (.accessDenied
        "You need administrator privileges to access customer management.")) := by
  have hpage : renderPage engine b .CustomersPage =
      .accessDenied "You need administrator privileges to access customer management." := by
    have hne : (some "CASHIER" == some "ADMIN") = false := by decide
    have hhas : (authService.hasRole engine b (some "ADMIN")).1 = false := by
      rw [hasRole_fst, hstored]
      simp only [hrole]
      exact hne
    simp [renderPage, CustomersPage, hhas]
  have hroute : App.routeFor "/customers" =
      some { children := .CustomersPage,
             requiredRoles := [USER_ROLES.ADMIN, USER_ROLES.CASHIER] } := by
    decide
  have hperm : hasPermission (auth.user.bind User.role)
      [USER_ROLES.ADMIN, USER_ROLES.CASHIER] = true := by
    rw [hu]
    simp only [Option.some_bind, hrole]
    decide
  simp only [App.display, hroute, Option.map_some', hpage, ProtectedRoute, hl, ha, hperm]
  simp

/-- The instance of C3 for the session a cashier has right after logging
in. -/
theorem C3_customers_shows_access_denied_to_cashier_witness :
    App.display sampleEngine (loggedInAs (userWithRole "CASHIER"))
        { localStorage := [("userRole", "CASHIER"), ("user", "role=CASHIER"),
                           ("sessionId", "s-1")],
          href := "/login" }
        "/customers" =
      some (.children (.accessDenied
        "You need administrator privileges to access customer management.")) :=
  C3_customers_shows_access_denied_to_cashier sampleEngine
    (loggedInAs (userWithRole "CASHIER"))
    { localStorage := [("userRole", "CASHIER"), ("user", "role=CASHIER"),
                       ("sessionId", "s-1")],
      href := "/login" }
    (userWithRole "CASHIER") rfl rfl rfl rfl (by decide)

/-- A route admits a role exactly when its required list is empty or holds
the role. -/
theorem RouteAdmits_iff {α : Type} (props : ProtectedRouteProps α) (role : String) :
    RouteAdmits props role ↔ (props.requiredRoles = [] ∨ role ∈ props.requiredRoles) := by
  constructor
  · intro h
    have h1 := h (loggedInAs (userWithRole role)) "" rfl rfl rfl
    rcases (ProtectedRoute_children_iff_of_authenticated _ _ _ rfl rfl).mp h1 with h0 | ⟨r, hr, hm⟩
    · exact Or.inl h0
    · have hrr : r = role := by
        have : some role = some r := hr
        exact (Option.some.inj this).symm
      exact Or.inr (hrr ▸ hm)
  · intro h auth location hl ha hrole
    refine (ProtectedRoute_children_iff_of_authenticated auth location props hl ha).mpr ?_
    rcases h with h0 | hm
    · exact Or.inl h0
    · exact Or.inr ⟨role, hrole, hm⟩

/-- C4 fails as stated: the Dashboard entry of `NAVIGATION_ITEMS` does not
list CUSTOMER, while the `/dashboard` route has no required roles and admits
an authenticated CUSTOMER. -/
theorem C4_navigation_roles_iff_route_admits_counterexample :
    ¬ (∀ item ∈ NAVIGATION_ITEMS, ∀ role ∈ USER_ROLES.values,
        (role ∈ item.roles ↔
          ∃ props, App.routeFor item.path = some props ∧ RouteAdmits props role)) := by
  intro h
  have hitem : ({ name := "Dashboard", path := "/dashboard", icon := "dashboard",
                  roles := ["ADMIN", "USER", "CASHIER"] } : NavigationItem)
      ∈ NAVIGATION_ITEMS := by decide
  have hrole : "CUSTOMER" ∈ USER_ROLES.values := by decide
  have hiff := h _ hitem "CUSTOMER" hrole
  have hadm : ∃ props, App.routeFor "/dashboard" = some props ∧ RouteAdmits props "CUSTOMER" :=
    ⟨{ children := .DashboardPage }, by decide, (RouteAdmits_iff _ _).mpr (Or.inl rfl)⟩
  have hmem : "CUSTOMER" ∈ ["ADMIN", "USER", "CASHIER"] := hiff.mpr hadm
  exact absurd hmem (by decide)

/-- C4 (amended): every entry of `NAVIGATION_ITEMS` has a route declared in
`App` for its path; for every role of `USER_ROLES`, a role in the entry's
list is admitted by that route, and for every entry other than Dashboard the
route admits no other role. The `/dashboard` route admits every role. -/
theorem C4_navigation_roles_vs_route_admits (item : NavigationItem) (role : String)
    (hitem : item ∈ NAVIGATION_ITEMS) (hrole : role ∈ USER_ROLES.values) :
    ∃ props, App.routeFor item.path = some props ∧
      (role ∈ item.roles → RouteAdmits props role) ∧
      (item.path ≠ "/dashboard" → (role ∈ item.roles ↔ RouteAdmits props role)) ∧
      (item.path = "/dashboard" → RouteAdmits props role) := by
  simp only [NAVIGATION_ITEMS, List.mem_cons, List.mem_singleton, List.not_mem_nil,
    or_false] at hitem
  simp only [USER_ROLES.values, USER_ROLES.ADMIN, USER_ROLES.USER, USER_ROLES.CUSTOMER,
    USER_ROLES.CASHIER, List.mem_cons, List.mem_singleton, List.not_mem_nil,
    or_false] at hrole
  rcases hitem with rfl | rfl | rfl | rfl | rfl | rfl | rfl | rfl <;>
    rcases hrole with rfl | rfl | rfl | rfl <;>
    exact ⟨_, rfl, by rw [RouteAdmits_iff]; decide, by rw [RouteAdmits_iff]; decide,
      by rw [RouteAdmits_iff]; decide⟩

/-- The instance of amended C4 at the Customers entry and the CASHIER
role. -/
theorem C4_navigation_roles_vs_route_admits_witness :
    ∃ props, App.routeFor "/customers" = some props ∧
      ("CASHIER" ∈ ["ADMIN", "CASHIER"] → RouteAdmits props "CASHIER") ∧
      ("/customers" ≠ "/dashboard" →
        ("CASHIER" ∈ ["ADMIN", "CASHIER"] ↔ RouteAdmits props "CASHIER")) ∧
      ("/customers" = "/dashboard" → RouteAdmits props "CASHIER") :=
  C4_navigation_roles_vs_route_admits
    { name := "Customers", path := "/customers", icon := "users", roles := ["ADMIN", "CASHIER"] }
    "CASHIER" (by decide) (by decide)

/-- Reading a key after `removeItem`: the removed key is absent, every other
key reads as before. -/
theorem getItem_removeItem (ls : Storage) (key k : String) :
    Storage.getItem (Storage.removeItem ls key) k =
      if k = key then none else Storage.getItem ls k := by
  induction ls with
  | nil => simp [Storage.getItem, Storage.removeItem]
  | cons kv rest ih =>
    obtain ⟨a, v⟩ := kv
    simp only [Storage.getItem, Storage.removeItem] at ih ⊢
    by_cases ha : a = key
    · subst ha
      by_cases hk : k = a
      · subst hk
        simp [List.filter_cons, List.lookup_cons] at ih ⊢
        exact ih
      · have hka : (k == a) = false := by simpa using hk
        simp [List.filter_cons, List.lookup_cons, hk, hka] at ih ⊢
        exact ih
    · have hak : (a != key) = true := by simpa using ha
      by_cases hk : k = a
      · subst hk
        simp [List.filter_cons, List.lookup_cons, hak, ha]
      · have hka : (k == a) = false := by simpa using hk
        simp only [List.filter_cons, hak, if_true, List.lookup_cons, hka]
        exact ih

/-- Reading a key after `setItem`: the written key holds the new value, every
other key reads as before. -/
theorem getItem_setItem (ls : Storage) (key value k : String) :
    Storage.getItem (Storage.setItem ls key value) k =
      if k = key then some value else Storage.getItem ls k := by
  by_cases hk : k = key
  · subst hk
    simp [Storage.getItem, Storage.setItem, List.lookup_cons]
  · have hkk : (k == key) = false := by simpa using hk
    have h := getItem_removeItem ls key k
    simp only [Storage.getItem, Storage.setItem, List.lookup_cons, hkk, hk, if_false] at h ⊢
    exact h

/-- Reading a key after the three session keys were removed. -/
theorem getItem_removeSessionKeys (ls : Storage) (k : String) :
    Storage.getItem (removeSessionKeys ls) k =
      if k = "sessionId" ∨ k = "user" ∨ k = "userRole" then none else Storage.getItem ls k := by
  unfold removeSessionKeys
  rw [getItem_removeItem, getItem_removeItem, getItem_removeItem]
  by_cases h1 : k = "userRole"
  · simp [h1]
  · by_cases h2 : k = "user"
    · simp [h2]
    · by_cases h3 : k = "sessionId"
      · simp [h3]
      · simp [h1, h2, h3]

/-- Without a stored session id and user nobody is authenticated and nobody
is an admin. -/
theorem not_authenticated_of_keys_absent (engine : Engine) (b : Browser)
    (hs : Storage.getItem b.localStorage "sessionId" = none)
    (hu : Storage.getItem b.localStorage "user" = none)
    (hr : Storage.getItem b.localStorage "userRole" = none) :
    (authService.isAuthenticated engine b).1 = false ∧ userService.isAdmin b = false := by
  constructor
  · simp [authService.isAuthenticated, authService.getSessionId, authService.getCurrentUser,
      hs, hu, truthy]
  · simp [userService.isAdmin, hr]

/-- C8: after `clearAuthData()`, and after `logout()` whether the logout
request succeeds or fails, the keys `sessionId`, `user` and `userRole` are
absent from storage, every other key is unchanged, `isAuthenticated()` is
false and `userService.isAdmin()` is false. -/
theorem C8_session_keys_cleared (engine : Engine) (outcome : Except ApiError Unit)
    (b b1 : Browser)
    (hb : b1 = authService.clearAuthData b ∨ b1 = authService.logout outcome b) :
    Storage.getItem b1.localStorage "sessionId" = none ∧
    Storage.getItem b1.localStorage "user" = none ∧
    Storage.getItem b1.localStorage "userRole" = none ∧
    (∀ k, k ≠ "sessionId" → k ≠ "user" → k ≠ "userRole" →
      Storage.getItem b1.localStorage k = Storage.getItem b.localStorage k) ∧
    (authService.isAuthenticated engine b1).1 = false ∧
    userService.isAdmin b1 = false := by
  have hread : ∀ k, Storage.getItem b1.localStorage k =
      if k = "sessionId" ∨ k = "user" ∨ k = "userRole" then none
      else Storage.getItem b.localStorage k := by
    intro k
    rcases hb with rfl | rfl
    · exact getItem_removeSessionKeys _ k
    · simp only [authService.logout]
      rw [getItem_removeSessionKeys]
      by_cases hk : k = "sessionId" ∨ k = "user" ∨ k = "userRole"
      · simp only [hk, if_true]
      · simp only [hk, if_false]
        cases outcome with
        | ok v => rfl
        | error e =>
          simp only [responseInterceptor]
          by_cases h401 : e.response.map ErrorResponse.status = some 401
          · simp only [h401, if_true]
            rw [getItem_removeSessionKeys]
            simp only [hk, if_false]
          · simp only [h401, if_false]
  have hs := hread "sessionId"
  have hu := hread "user"
  have hr := hread "userRole"
  simp only [true_or, or_true, if_true] at hs hu hr
  refine ⟨hs, hu, hr, ?_, not_authenticated_of_keys_absent engine b1 hs hu hr⟩
  intro k h1 h2 h3
  rw [hread k]
  simp [h1, h2, h3]

/-- The instance of C8 for a logout whose request fails with a 500, on a
browser that holds a cashier session and a key of another feature. -/
theorem C8_session_keys_cleared_witness :
    Storage.getItem
      (authService.logout
        (.error { response := some { status := 500, data := none }, request := true,
                  message := "Request failed with status code 500", code := none })
        { localStorage := [("theme", "dark"), ("userRole", "CASHIER"),
                           ("user", "role=CASHIER"), ("sessionId", "s-1")],
          href := "/sales" }).localStorage "theme" = some "dark" ∧
    (authService.isAuthenticated sampleEngine
      (authService.logout
        (.error { response := some { status := 500, data := none }, request := true,
                  message := "Request failed with status code 500", code := none })
        { localStorage := [("theme", "dark"), ("userRole", "CASHIER"),
                           ("user", "role=CASHIER"), ("sessionId", "s-1")],
          href := "/sales" })).1 = false :=
  have h := C8_session_keys_cleared sampleEngine
    (.error { response := some { status := 500, data := none }, request := true,
              message := "Request failed with status code 500", code := none })
    { localStorage := [("theme", "dark"), ("userRole", "CASHIER"),
                       ("user", "role=CASHIER"), ("sessionId", "s-1")],
      href := "/sales" }
    _ (Or.inr rfl)
  ⟨(h.2.2.2.1 "theme" (by decide) (by decide) (by decide)).trans (by decide), h.2.2.2.2.1⟩

/-- C7 fails as stated: a login response without a session id resolves with
`success: true` and `AuthProvider.login` marks the reducer state as
authenticated, but nothing is written to storage, so `isAuthenticated()` is
false and there is no stored session id or user. -/
theorem C7_login_success_persists_session_counterexample :
    (authService.login sampleEngine
      (.ok { sessionId := none, user := some (userWithRole "CASHIER") })
      freshBrowser).1.success = true ∧
    (AuthProvider.login sampleEngine
      (.ok { sessionId := none, user := some (userWithRole "CASHIER") })
      initialState freshBrowser).2.1.isAuthenticated = true ∧
    (authService.isAuthenticated sampleEngine
      (authService.login sampleEngine
        (.ok { sessionId := none, user := some (userWithRole "CASHIER") })
        freshBrowser).2).1 = false ∧
    authService.getSessionId
      (authService.login sampleEngine
        (.ok { sessionId := none, user := some (userWithRole "CASHIER") })
        freshBrowser).2 = none ∧
    (authService.getCurrentUser sampleEngine
      (authService.login sampleEngine
        (.ok { sessionId := none, user := some (userWithRole "CASHIER") })
        freshBrowser).2).1 = none := by
  decide

/-- The browser a successful login with a session id and a user leaves. -/
theorem login_ok_with_session (engine : Engine) (b : Browser) (sid : String) (u : User)
    (data : LoginResponseData) (hsid : data.sessionId = some sid) (hne : sid ≠ "")
    (huser : data.user = some u) :
    (authService.login engine (.ok data) b).2 =
      { localStorage :=
          (Storage.setItem
            (Storage.setItem (Storage.setItem b.localStorage "sessionId" sid)
              "user" (engine.stringify u))
            "userRole" (jsString u.role)),
        href := b.href } := by
  have ht : truthy (some sid) = true := by simpa [truthy] using hne
  simp [authService.login, responseInterceptor, hsid, huser, ht, jsString]

/-- C7 (amended): whenever `authService.login` resolves with `success: true`
on a response whose `sessionId` is a non-empty string, the session has been
persisted: `isAuthenticated()` is true, `getSessionId()` is the response's
session id, and `getCurrentUser()` is the response's user (by the JSON round
trip of that user), so that `hasRole(user.role)` holds. With a missing or
empty `sessionId` the login still resolves with `success: true` and leaves
the browser state as it was. -/
theorem C7_login_success_persists_session (engine : Engine) (data : LoginResponseData)
    (b : Browser)
    (hsucc : (authService.login engine (.ok data) b).1.success = true)
    (hjson : ∀ u, data.user = some u →
      engine.stringify u ≠ "" ∧ engine.parse (engine.stringify u) = some (some u)) :
    (∀ sid, data.sessionId = some sid → sid ≠ "" →
      (authService.isAuthenticated engine (authService.login engine (.ok data) b).2).1 = true ∧
      authService.getSessionId (authService.login engine (.ok data) b).2 = some sid ∧
      ∃ u, data.user = some u ∧
        (authService.getCurrentUser engine (authService.login engine (.ok data) b).2).1
          = some u ∧
        (authService.hasRole engine (authService.login engine (.ok data) b).2 u.role).1
          = true) ∧
    (truthy data.sessionId = false → (authService.login engine (.ok data) b).2 = b) := by
  constructor
  · intro sid hsid hne
    have ht : truthy (some sid) = true := by simpa [truthy] using hne
    cases huser : data.user with
    | none =>
      simp [authService.login, responseInterceptor, hsid, huser, ht, ServiceResult.failure]
        at hsucc
    | some u =>
      obtain ⟨hstr, hparse⟩ := hjson u huser
      rw [login_ok_with_session engine b sid u data hsid hne huser]
      have hk1 : Storage.getItem
          (Storage.setItem
            (Storage.setItem (Storage.setItem b.localStorage "sessionId" sid)
              "user" (engine.stringify u))
            "userRole" (jsString u.role)) "sessionId" = some sid := by
        rw [getItem_setItem, getItem_setItem, getItem_setItem]
        simp
      have hk2 : Storage.getItem
          (Storage.setItem
            (Storage.setItem (Storage.setItem b.localStorage "sessionId" sid)
              "user" (engine.stringify u))
            "userRole" (jsString u.role)) "user" = some (engine.stringify u) := by
        rw [getItem_setItem, getItem_setItem]
        simp
      have hstr2 : (engine.stringify u != "") = true := by simpa using hstr
      have hcur : ∀ b2 : Browser, b2.localStorage =
          Storage.setItem
            (Storage.setItem (Storage.setItem b.localStorage "sessionId" sid)
              "user" (engine.stringify u))
            "userRole" (jsString u.role) →
          authService.getCurrentUser engine b2 = (some u, b2) := by
        intro b2 hb2
        simp only [authService.getCurrentUser, hb2, hk2, hstr2, if_true, hparse]
      have hc := hcur
        { localStorage :=
            (Storage.setItem
              (Storage.setItem (Storage.setItem b.localStorage "sessionId" sid)
                "user" (engine.stringify u))
              "userRole" (jsString u.role)),
          href := b.href } rfl
      refine ⟨?_, ?_, u, rfl, ?_, ?_⟩
      · simp only [authService.isAuthenticated, authService.getSessionId, hk1, hc, ht]
        rfl
      · simp only [authService.getSessionId, hk1]
      · rw [hc]
      · rw [hasRole_fst, hc]
        simp
  · intro hf
    simp [authService.login, responseInterceptor, hf]

/-- The instance of amended C7 for a cashier logging in on a fresh
browser. -/
theorem C7_login_success_persists_session_witness :
    (authService.isAuthenticated sampleEngine
      (authService.login sampleEngine
        (.ok { sessionId := some "s-1", user := some (userWithRole "CASHIER") })
        freshBrowser).2).1 = true ∧
    authService.getSessionId
      (authService.login sampleEngine
        (.ok { sessionId := some "s-1", user := some (userWithRole "CASHIER") })
        freshBrowser).2 = some "s-1" :=
  have h := (C7_login_success_persists_session sampleEngine
    { sessionId := some "s-1", user := some (userWithRole "CASHIER") } freshBrowser
    (by decide)
    (by
      intro u hu
      have hu2 : u = userWithRole "CASHIER" := (Option.some.inj hu).symm
      subst hu2
      decide)).1 "s-1" rfl (by decide)
  ⟨h.1, h.2.1⟩

/-- The offered changes, spelled out: PENDING to COMPLETED or CANCELLED, and
COMPLETED to REFUNDED. -/
theorem offersChange_iff (current next : String) :
    offersChange current next ↔
      (current = "PENDING" ∧ (next = "COMPLETED" ∨ next = "CANCELLED")) ∨
      (current = "COMPLETED" ∧ next = "REFUNDED") := by
  unfold offersChange getAvailableStatusOptions
  by_cases h1 : current = "PENDING"
  · subst h1
    have hv : (List.map StatusOption.value
        (List.filter (fun s => ["COMPLETED", "CANCELLED"].contains s.value)
          (List.map (fun status => ({ value := status, label := status } : StatusOption))
            SALE_STATUS.values))) = ["COMPLETED", "CANCELLED"] := by decide
    simp only [if_true, hv]
    simp
  · by_cases h2 : current = "COMPLETED"
    · subst h2
      have hv : (List.map StatusOption.value
          (List.filter (fun s => ["REFUNDED"].contains s.value)
            (List.map (fun status => ({ value := status, label := status } : StatusOption))
              SALE_STATUS.values))) = ["REFUNDED"] := by decide
      simp only [h1, if_false, if_true, hv]
      simp
    · simp [h1, h2]

/-- C9: `getAvailableStatusOptions` offers exactly COMPLETED and CANCELLED
for a PENDING sale, exactly REFUNDED for a COMPLETED sale, and nothing for
any other status; hence no status can be changed to PENDING or to itself,
CANCELLED and REFUNDED are terminal, and every chain of offered status
changes has at most 2 changes (3 statuses). -/
theorem C9_status_options (chain : List String) (hchain : List.Chain' offersChange chain) :
    getAvailableStatusOptions "PENDING" =
      [{ value := "COMPLETED", label := "COMPLETED" },
       { value := "CANCELLED", label := "CANCELLED" }] ∧
    getAvailableStatusOptions "COMPLETED" = [{ value := "REFUNDED", label := "REFUNDED" }] ∧
    (∀ s, s ≠ "PENDING" → s ≠ "COMPLETED" → getAvailableStatusOptions s = []) ∧
    (∀ s, ¬ offersChange s "PENDING") ∧
    (∀ s, ¬ offersChange s s) ∧
    (∀ t, ¬ offersChange "CANCELLED" t ∧ ¬ offersChange "REFUNDED" t) ∧
    chain.length ≤ 3 := by
  refine ⟨by decide, by decide, ?_, ?_, ?_, ?_, ?_⟩
  · intro s h1 h2
    simp [getAvailableStatusOptions, h1, h2]
  · intro s h
    rcases (offersChange_iff s "PENDING").mp h with ⟨_, h1 | h1⟩ | ⟨_, h1⟩ <;>
      exact absurd h1 (by decide)
  · intro s h
    rcases (offersChange_iff s s).mp h with ⟨h0, h1 | h1⟩ | ⟨h0, h1⟩ <;>
      · rw [h0] at h1
        exact absurd h1 (by decide)
  · intro t
    constructor
    · intro h
      rcases (offersChange_iff "CANCELLED" t).mp h with ⟨h0, _⟩ | ⟨h0, _⟩ <;>
        exact absurd h0 (by decide)
    · intro h
      rcases (offersChange_iff "REFUNDED" t).mp h with ⟨h0, _⟩ | ⟨h0, _⟩ <;>
        exact absurd h0 (by decide)
  · match chain, hchain with
    | [], _ => simp
    | [_], _ => simp
    | [_, _], _ => simp
    | [_, _, _], _ => simp
    | a :: b :: c :: d :: rest, hc =>
      exfalso
      simp only [List.chain'_cons] at hc
      obtain ⟨hab, hbc, hcd, _⟩ := hc
      have hb : b = "COMPLETED" := by
        rcases (offersChange_iff a b).mp hab with ⟨_, h1 | h1⟩ | ⟨_, h1⟩ <;>
          rcases (offersChange_iff b c).mp hbc with ⟨h2, _⟩ | ⟨h2, _⟩ <;>
          first
            | exact h2
            | (rw [h1] at h2; exact absurd h2 (by decide))
      have hcr : c = "REFUNDED" := by
        rcases (offersChange_iff b c).mp hbc with ⟨h2, _⟩ | ⟨_, h1⟩
        · rw [hb] at h2
          exact absurd h2 (by decide)
        · exact h1
      rcases (offersChange_iff c d).mp hcd with ⟨h2, _⟩ | ⟨h2, _⟩ <;>
        · rw [hcr] at h2
          exact absurd h2 (by decide)

/-- The longest chain of offered changes, PENDING to COMPLETED to REFUNDED,
is a chain and meets the bound of C9. -/
theorem C9_status_options_witness :
    List.Chain' offersChange ["PENDING", "COMPLETED", "REFUNDED"] ∧
    ["PENDING", "COMPLETED", "REFUNDED"].length ≤ 3 :=
  have hc : List.Chain' offersChange ["PENDING", "COMPLETED", "REFUNDED"] := by
    simp only [List.chain'_cons, List.chain'_singleton, offersChange_iff]
    decide
  ⟨hc, (C9_status_options ["PENDING", "COMPLETED", "REFUNDED"] hc).2.2.2.2.2.2⟩

/-- When `findIndex` finds nothing, `find` finds nothing. -/
theorem find_none_of_findIndex_none {α : Type} (p : α → Bool) (l : List α)
    (h : findIndex p l = none) : l.find? p = none := by
  induction l with
  | nil => rfl
  | cons a as ih =>
    unfold findIndex at h
    by_cases hp : p a = true
    · simp [hp] at h
    · have hp2 : p a = false := by simpa using hp
      simp only [hp2, Bool.false_eq_true, if_false, Option.map_eq_none'] at h
      simp [List.find?_cons, hp2, ih h]

/-- When `findIndex` finds an index, `find` finds the item there, and the
copy incremented at that index holds the old items and the found item with
one more. -/
theorem mem_incrementAt_of_findIndex (p : CartItem → Bool) (l : List CartItem) (i : Nat)
    (h : findIndex p l = some i) :
    ∃ item, l.find? p = some item ∧ p item = true ∧ item ∈ l ∧
      ∀ x ∈ incrementAt l i, x ∈ l ∨ x = { item with quantity := item.quantity + 1 } := by
  induction l generalizing i with
  | nil => simp [findIndex] at h
  | cons a as ih =>
    unfold findIndex at h
    by_cases hp : p a = true
    · simp only [hp, if_true, Option.some.injEq] at h
      subst h
      refine ⟨a, by simp [List.find?_cons, hp], hp, List.mem_cons_self _ _, ?_⟩
      intro x hx
      simp only [incrementAt, List.mem_cons] at hx
      rcases hx with hx | hx
      · exact Or.inr hx
      · exact Or.inl (List.mem_cons_of_mem _ hx)
    · have hp2 : p a = false := by simpa using hp
      simp only [hp2, Bool.false_eq_true, if_false, Option.map_eq_some'] at h
      obtain ⟨j, hj, hji⟩ := h
      subst hji
      obtain ⟨item, hfind, hpi, hmem, hall⟩ := ih j hj
      refine ⟨item, by simp [List.find?_cons, hp2, hfind], hpi, List.mem_cons_of_mem _ hmem, ?_⟩
      intro x hx
      simp only [incrementAt, List.mem_cons] at hx
      rcases hx with hx | hx
      · exact Or.inl (hx ▸ List.mem_cons_self _ _)
      · rcases hall x hx with h1 | h1
        · exact Or.inl (List.mem_cons_of_mem _ h1)
        · exact Or.inr h1

/-- `addToCart` keeps every quantity between 1 and the stock. -/
theorem addToCart_within_stock (products : List Product) (cart : List CartItem)
    (product : Product) (hinv : CartWithinStock products cart)
    (hprod : stockOf products product.productId = some product.quantity) :
    CartWithinStock products ((addToCart cart product).cartAfter cart) := by
  unfold addToCart
  by_cases hg : getSelectedQuantity cart product.productId ≥ product.quantity
  · simp only [hg, if_true, CartEffect.cartAfter]
    exact hinv
  · simp only [hg, if_false]
    have hlt : getSelectedQuantity cart product.productId < product.quantity := by omega
    cases hidx : findIndex (fun item => item.productId == product.productId) cart with
    | none =>
      have hfind := find_none_of_findIndex_none _ _ hidx
      simp only [getSelectedQuantity, hfind] at hlt
      simp only [CartEffect.cartAfter]
      intro x hx
      rcases List.mem_append.mp hx with hx | hx
      · exact hinv x hx
      · rw [List.mem_singleton] at hx
        subst hx
        exact ⟨product.quantity, hprod, le_refl _, by show (1 : Int) ≤ product.quantity; omega⟩
    | some i =>
      obtain ⟨item, hfind, hpi, hmem, hall⟩ := mem_incrementAt_of_findIndex _ _ _ hidx
      simp only [getSelectedQuantity, hfind] at hlt
      simp only [CartEffect.cartAfter]
      intro x hx
      rcases hall x hx with h1 | h1
      · exact hinv x h1
      · subst h1
        have hid : item.productId = product.productId := by simpa using hpi
        obtain ⟨stock, _, hone, _⟩ := hinv item hmem
        refine ⟨product.quantity, ?_, ?_, ?_⟩
        · show stockOf products item.productId = some product.quantity
          rw [hid]
          exact hprod
        · show (1 : Int) ≤ item.quantity + 1
          omega
        · show item.quantity + 1 ≤ product.quantity
          omega

/-- `updateQuantity` keeps every quantity between 1 and the stock. -/
theorem updateQuantity_within_stock (products : List Product) (cart : List CartItem)
    (productId : String) (newQuantity : Int) (hinv : CartWithinStock products cart) :
    CartWithinStock products
      ((updateQuantity products cart productId newQuantity).cartAfter cart) := by
  unfold updateQuantity
  by_cases hneg : newQuantity < 0
  · simp only [hneg, if_true, CartEffect.cartAfter]
    exact hinv
  · simp only [hneg, if_false]
    cases hfind : products.find? (fun p => p.productId == productId) with
    | none => exact hinv
    | some product =>
      simp only
      by_cases hgt : newQuantity > product.quantity
      · simp only [hgt, if_true, CartEffect.cartAfter]
        exact hinv
      · simp only [hgt, if_false]
        by_cases hzero : newQuantity = 0
        · simp only [hzero, if_true, removeFromCart, CartEffect.cartAfter]
          intro x hx
          exact hinv x (List.mem_filter.mp hx).1
        · simp only [hzero, if_false, CartEffect.cartAfter]
          intro x hx
          obtain ⟨item, hitem, hx2⟩ := List.mem_map.mp hx
          by_cases hid : (item.productId == productId) = true
          · simp only [hid, if_true] at hx2
            subst hx2
            have hid2 : item.productId = productId := by simpa using hid
            refine ⟨product.quantity, ?_, ?_, ?_⟩
            · show stockOf products item.productId = some product.quantity
              rw [hid2]
              simp [stockOf, hfind]
            · show (1 : Int) ≤ newQuantity
              omega
            · show newQuantity ≤ product.quantity
              omega
          · simp only [hid, if_false] at hx2
            subst hx2
            exact hinv item hitem

/-- C10: starting from a cart in which every item has a quantity between 1
and the stock quantity of its product, `addToCart` (for a product of the
catalog) and `updateQuantity` yield a cart with the same property; a call
that would push a quantity above the stock (`addToCart` when the selected
quantity has reached the stock, `updateQuantity` with a new quantity above
the stock) or a negative new quantity only reports and leaves the cart
unchanged. -/
theorem C10_cart_quantities_within_stock (products : List Product) (cart : List CartItem)
    (product : Product) (productId : String) (newQuantity : Int)
    (hinv : CartWithinStock products cart)
    (hprod : stockOf products product.productId = some product.quantity) :
    CartWithinStock products ((addToCart cart product).cartAfter cart) ∧
    CartWithinStock products
      ((updateQuantity products cart productId newQuantity).cartAfter cart) ∧
    (getSelectedQuantity cart product.productId ≥ product.quantity →
      addToCart cart product =
        .toastError ("Cannot add more items. Only " ++ toString product.quantity
          ++ " in stock.") ∧
      (addToCart cart product).cartAfter cart = cart) ∧
    (∀ stock, stockOf products productId = some stock → newQuantity > stock →
      (updateQuantity products cart productId newQuantity).cartAfter cart = cart) ∧
    (newQuantity < 0 →
      updateQuantity products cart productId newQuantity = .noEffect ∧
      (updateQuantity products cart productId newQuantity).cartAfter cart = cart) := by
  refine ⟨addToCart_within_stock products cart product hinv hprod,
    updateQuantity_within_stock products cart productId newQuantity hinv, ?_, ?_, ?_⟩
  · intro hg
    have he : addToCart cart product =
        .toastError ("Cannot add more items. Only " ++ toString product.quantity
          ++ " in stock.") := by
      simp only [addToCart, hg, if_true]
    exact ⟨he, by rw [he]; rfl⟩
  · intro stock hstock hgt
    unfold updateQuantity
    by_cases hneg : newQuantity < 0
    · simp only [hneg, if_true, CartEffect.cartAfter]
    · simp only [hneg, if_false]
      cases hfind : products.find? (fun p => p.productId == productId) with
      | none => rfl
      | some found =>
        have hq : found.quantity = stock := by
          simpa [stockOf, hfind] using hstock
        have hgt2 : newQuantity > found.quantity := by omega
        simp only [hgt2, if_true, CartEffect.cartAfter]
  · intro hneg
    have he : updateQuantity products cart productId newQuantity = .noEffect := by
      simp only [updateQuantity, hneg, if_true]
    exact ⟨he, by rw [he]; rfl⟩

/-- The cart of both notebooks is within the stock of the sample catalog. -/
theorem sampleCart_within_stock : CartWithinStock sampleProducts sampleCart := by
  intro item hitem
  simp only [sampleCart, List.mem_singleton] at hitem
  subst hitem
  exact ⟨2, by decide, by decide, by decide⟩

/-- The instance of C10 on the sample catalog with both notebooks in the
cart: adding a third notebook and asking for three are refused and leave the
cart as it is, and taking one out keeps the cart within the stock. -/
theorem C10_cart_quantities_within_stock_witness :
    CartWithinStock sampleProducts sampleCart ∧
    (addToCart sampleCart
      { productId := "P-1", name := "Notebook", productCode := "NB-1",
        category := "STATIONARY", price := 120, quantity := 2, status := "AVAILABLE" }
      ).cartAfter sampleCart = sampleCart ∧
    (updateQuantity sampleProducts sampleCart "P-1" 3).cartAfter sampleCart = sampleCart ∧
    CartWithinStock sampleProducts
      ((updateQuantity sampleProducts sampleCart "P-1" 1).cartAfter sampleCart) :=
  ⟨sampleCart_within_stock,
   ((C10_cart_quantities_within_stock sampleProducts sampleCart
      { productId := "P-1", name := "Notebook", productCode := "NB-1",
        category := "STATIONARY", price := 120, quantity := 2, status := "AVAILABLE" }
      "P-1" 3 sampleCart_within_stock (by decide)).2.2.1 (by decide)).2,
   (C10_cart_quantities_within_stock sampleProducts sampleCart
      { productId := "P-1", name := "Notebook", productCode := "NB-1",
        category := "STATIONARY", price := 120, quantity := 2, status := "AVAILABLE" }
      "P-1" 3 sampleCart_within_stock (by decide)).2.2.2.1 2 (by decide) (by decide),
   (C10_cart_quantities_within_stock sampleProducts sampleCart
      { productId := "P-1", name := "Notebook", productCode := "NB-1",
        category := "STATIONARY", price := 120, quantity := 2, status := "AVAILABLE" }
      "P-1" 1 sampleCart_within_stock (by decide)).2.1⟩

/-- A left fold that adds one term per item is the start value plus the sum
of the terms. -/
theorem foldl_add_eq_sum (f : CartItem → ℚ) (items : List CartItem) (start : ℚ) :
    items.foldl (fun total item => total + f item) start = start + (items.map f).sum := by
  induction items generalizing start with
  | nil => simp
  | cons item rest ih =>
    simp only [List.foldl_cons, List.map_cons, List.sum_cons]
    rw [ih]
    ring

/-- Without rounding, the subtotal of the page is the sum of
`unitPrice * quantity`. -/
theorem calculateSubtotal_eq_sum (selectedItems : List CartItem) :
    CreateSalePage.calculateSubtotal exactArithmetic selectedItems =
      (selectedItems.map fun item => item.unitPrice * (item.quantity : ℚ)).sum := by
  unfold CreateSalePage.calculateSubtotal exactArithmetic
  simp only
  rw [foldl_add_eq_sum (fun item => item.unitPrice * (item.quantity : ℚ))]
  simp

/-- Without rounding, the subtotal of a cart whose prices and quantities are
non-negative is non-negative. -/
theorem calculateSubtotal_nonneg (selectedItems : List CartItem)
    (h : ∀ item ∈ selectedItems, 0 ≤ item.unitPrice ∧ 0 ≤ item.quantity) :
    0 ≤ CreateSalePage.calculateSubtotal exactArithmetic selectedItems := by
  rw [calculateSubtotal_eq_sum]
  apply List.sum_nonneg
  intro x hx
  obtain ⟨item, hitem, rfl⟩ := List.mem_map.mp hx
  obtain ⟨hp, hq⟩ := h item hitem
  exact mul_nonneg hp (by exact_mod_cast hq)

/-- The number the validator compares is the parsed number, and 0 for a
text that does not parse. -/
theorem parsedDiscount_eq (parseFloat : String → Option ℚ) (value : String) (d : ℚ)
    (hd : parseFloat value = some d ∨ (parseFloat value = none ∧ d = 0)) :
    CreateSalePage.parsedDiscount parseFloat value = d := by
  rcases hd with h | ⟨h, h0⟩
  · simp [CreateSalePage.parsedDiscount, h]
  · simp [CreateSalePage.parsedDiscount, h, h0]

/-- The subtotal of the sample cart: two notebooks at 120. -/
theorem sampleCart_subtotal :
    CreateSalePage.calculateSubtotal exactArithmetic sampleCart = 240 := by
  norm_num [CreateSalePage.calculateSubtotal, exactArithmetic, sampleCart]

/-- The subtotal of the credit cart. -/
theorem creditCart_subtotal :
    CreateSalePage.calculateSubtotal exactArithmetic creditCart = -10 := by
  norm_num [CreateSalePage.calculateSubtotal, exactArithmetic, creditCart]

/-- C11 fails as stated: on a cart with a negative subtotal (-10) the typed
discount -5 exceeds the subtotal, yet the validator returns "Discount cannot
be negative", not "Discount cannot exceed subtotal": the negative check
comes first. -/
theorem C11_discount_validator_counterexample :
    ¬ (∀ (arith : Arithmetic) (parseFloat : String → Option ℚ)
        (selectedItems : List CartItem) (value : String) (d : ℚ),
        (parseFloat value = some d ∨ (parseFloat value = none ∧ d = 0)) →
        (CreateSalePage.validateDiscount parseFloat
            (CreateSalePage.calculateSubtotal arith selectedItems) value
            = .rejected "Discount cannot exceed subtotal" ↔
          d > CreateSalePage.calculateSubtotal arith selectedItems)) := by
  intro h
  have h1 := h exactArithmetic sampleParseFloat creditCart "-5" (-5) (Or.inl rfl)
  rw [creditCart_subtotal] at h1
  have hv : CreateSalePage.validateDiscount sampleParseFloat (-10) "-5"
      = .rejected "Discount cannot be negative" := by
    have hp : CreateSalePage.parsedDiscount sampleParseFloat "-5" = -5 := rfl
    unfold CreateSalePage.validateDiscount
    simp only [hp]
    norm_num
  rw [hv] at h1
  have h2 := h1.mpr (by norm_num)
  exact absurd (ValidationResult.rejected.inj h2) (by decide)

/-- C11 (amended): let `d` be the number `parseFloat` reads from the typed
value, or 0 when the value does not parse. For every subtotal the validator
accepts if and only if `0 ≤ d ≤ subtotal`, returns "Discount cannot be
negative" exactly when `d < 0`, and returns "Discount cannot exceed
subtotal" exactly when `0 ≤ d` and `d > subtotal`, which for a non-negative
subtotal is exactly when `d > subtotal`. The subtotal of the page is the
left-to-right sum of `unitPrice * quantity` in the engine's arithmetic, and
the displayed final amount is `max(0, subtotal - d)`; for every accepted
discount it is the difference `subtotal - d` as the engine computes it
(a difference of `a` and `b ≤ a` being non-negative), and the change handler
leaves the field as typed; the handler writes the subtotal back exactly when
the typed number exceeds it. -/
theorem C11_discount_validator (arith : Arithmetic) (parseFloat : String → Option ℚ)
    (selectedItems : List CartItem) (value : String) (subtotal d : ℚ)
    (hd : parseFloat value = some d ∨ (parseFloat value = none ∧ d = 0)) :
    (CreateSalePage.validateDiscount parseFloat subtotal value = .accepted ↔
      0 ≤ d ∧ d ≤ subtotal) ∧
    (CreateSalePage.validateDiscount parseFloat subtotal value
        = .rejected "Discount cannot be negative" ↔ d < 0) ∧
    (CreateSalePage.validateDiscount parseFloat subtotal value
        = .rejected "Discount cannot exceed subtotal" ↔ 0 ≤ d ∧ d > subtotal) ∧
    (0 ≤ subtotal →
      (CreateSalePage.validateDiscount parseFloat subtotal value
          = .rejected "Discount cannot exceed subtotal" ↔ d > subtotal)) ∧
    CreateSalePage.calculateSubtotal arith [] = 0 ∧
    (∀ item, CreateSalePage.calculateSubtotal arith (selectedItems ++ [item]) =
      arith.add (CreateSalePage.calculateSubtotal arith selectedItems)
        (arith.mul item.unitPrice item.quantity)) ∧
    CreateSalePage.calculateFinalAmount arith parseFloat selectedItems value =
      max 0 (arith.sub (CreateSalePage.calculateSubtotal arith selectedItems) d) ∧
    ((∀ a b : ℚ, b ≤ a → 0 ≤ arith.sub a b) →
      CreateSalePage.validateDiscount parseFloat
        (CreateSalePage.calculateSubtotal arith selectedItems) value = .accepted →
      CreateSalePage.calculateFinalAmount arith parseFloat selectedItems value =
          arith.sub (CreateSalePage.calculateSubtotal arith selectedItems) d ∧
        CreateSalePage.handleDiscountChange arith parseFloat selectedItems value = none) ∧
    (parseFloat value = none →
      CreateSalePage.handleDiscountChange arith parseFloat selectedItems value = none) ∧
    (parseFloat value = some d →
      CreateSalePage.handleDiscountChange arith parseFloat selectedItems value =
        if d > CreateSalePage.calculateSubtotal arith selectedItems then
          some (CreateSalePage.calculateSubtotal arith selectedItems)
        else none) := by
  have hpd := parsedDiscount_eq parseFloat value d hd
  have hmsg : ("Discount cannot be negative" : String) ≠ "Discount cannot exceed subtotal" := by
    decide
  have haccept : ∀ total : ℚ,
      (CreateSalePage.validateDiscount parseFloat total value = .accepted ↔
        0 ≤ d ∧ d ≤ total) := by
    intro total
    unfold CreateSalePage.validateDiscount
    simp only [hpd]
    by_cases h1 : d < 0
    · simp only [h1, if_true]
      constructor
      · intro h; cases h
      · intro h; exact absurd h1 (not_lt.mpr h.1)
    · by_cases h2 : d > total
      · simp only [h1, h2, if_true, if_false]
        constructor
        · intro h; cases h
        · intro h; exact absurd h2 (not_lt.mpr h.2)
      · simp only [h1, h2, if_false, true_iff]
        exact ⟨not_lt.mp h1, not_lt.mp h2⟩
  have hexceed : CreateSalePage.validateDiscount parseFloat subtotal value
        = .rejected "Discount cannot exceed subtotal" ↔ 0 ≤ d ∧ d > subtotal := by
    unfold CreateSalePage.validateDiscount
    simp only [hpd]
    by_cases h1 : d < 0
    · simp only [h1, if_true]
      constructor
      · intro h
        exact absurd (ValidationResult.rejected.inj h) hmsg
      · intro h
        exact absurd h1 (not_lt.mpr h.1)
    · by_cases h2 : d > subtotal
      · rw [if_neg h1, if_pos h2]
        exact ⟨fun _ => ⟨not_lt.mp h1, h2⟩, fun _ => rfl⟩
      · rw [if_neg h1, if_neg h2]
        constructor
        · intro h; cases h
        · intro h; exact absurd h.2 h2
  refine ⟨haccept subtotal, ?_, hexceed, ?_, rfl, ?_, ?_, ?_, ?_, ?_⟩
  · unfold CreateSalePage.validateDiscount
    simp only [hpd]
    by_cases h1 : d < 0
    · simp only [h1, if_true]
    · by_cases h2 : d > subtotal
      · simp only [h1, h2, if_true, if_false, iff_false]
        intro h
        exact hmsg (ValidationResult.rejected.inj h).symm
      · simp only [h1, h2, if_false, iff_false]
        intro h; cases h
  · intro hsub
    rw [hexceed]
    constructor
    · intro h; exact h.2
    · intro h; exact ⟨le_trans hsub (le_of_lt h), h⟩
  · intro item
    simp [CreateSalePage.calculateSubtotal, List.foldl_append]
  · unfold CreateSalePage.calculateFinalAmount
    simp only [hpd]
  · intro hsubtr hacc
    obtain ⟨h0, hle⟩ := (haccept _).mp hacc
    constructor
    · unfold CreateSalePage.calculateFinalAmount
      simp only [hpd]
      exact max_eq_right (hsubtr _ _ hle)
    · unfold CreateSalePage.handleDiscountChange
      cases hp : parseFloat value with
      | none => rfl
      | some typed =>
        have htyped : typed = d := by
          rcases hd with h | ⟨h, _⟩
          · rw [hp] at h; exact Option.some.inj h
          · rw [hp] at h; cases h
        rw [← htyped] at hle
        simp only [gt_iff_lt, not_lt.mpr hle, if_false]
  · intro hnone
    simp [CreateSalePage.handleDiscountChange, hnone]
  · intro hsome
    simp [CreateSalePage.handleDiscountChange, hsome]

/-- The instance of amended C11 on the sample cart (subtotal 240, exact
arithmetic): a discount of 40 is accepted and leaves 240 - 40 to pay, a
discount of 300 is refused as exceeding the subtotal, and -5 as negative. -/
theorem C11_discount_validator_witness :
    CreateSalePage.validateDiscount sampleParseFloat 240 "40" = .accepted ∧
    CreateSalePage.calculateFinalAmount exactArithmetic sampleParseFloat sampleCart "40"
      = 240 - 40 ∧
    CreateSalePage.validateDiscount sampleParseFloat 240 "300"
      = .rejected "Discount cannot exceed subtotal" ∧
    CreateSalePage.validateDiscount sampleParseFloat 240 "-5"
      = .rejected "Discount cannot be negative" :=
  have hacc : CreateSalePage.validateDiscount sampleParseFloat 240 "40" = .accepted :=
    (C11_discount_validator exactArithmetic sampleParseFloat sampleCart "40" 240 40
      (Or.inl rfl)).1.mpr (by norm_num)
  have hfinal := ((C11_discount_validator exactArithmetic sampleParseFloat sampleCart "40"
      240 40 (Or.inl rfl)).2.2.2.2.2.2.2.1
        (fun a b hab => sub_nonneg.mpr hab)
        (by rw [sampleCart_subtotal]; exact hacc)).1
  ⟨hacc,
   by rw [hfinal, sampleCart_subtotal]; rfl,
   (C11_discount_validator exactArithmetic sampleParseFloat sampleCart "300" 240 300
      (Or.inl rfl)).2.2.1.mpr (by norm_num),
   (C11_discount_validator exactArithmetic sampleParseFloat sampleCart "-5" 240 (-5)
      (Or.inl rfl)).2.1.mpr (by norm_num)⟩

/-- C12: for every subtotal and every numeric discount (exact arithmetic),
`calculateFinalAmount(subtotal, discount)` is `max(0, subtotal - discount)`:
it is never negative, it is `subtotal - discount` whenever the discount is at
most the subtotal, and with the discount omitted it is the subtotal for
every non-negative subtotal. -/
theorem C12_calculateFinalAmount (subtotal discount : ℚ) :
    salesService.calculateFinalAmount subtotal (some discount) = max 0 (subtotal - discount) ∧
    0 ≤ salesService.calculateFinalAmount subtotal (some discount) ∧
    (discount ≤ subtotal →
      salesService.calculateFinalAmount subtotal (some discount) = subtotal - discount) ∧
    0 ≤ salesService.calculateFinalAmount subtotal none ∧
    (0 ≤ subtotal → salesService.calculateFinalAmount subtotal none = subtotal) := by
  refine ⟨rfl, le_max_left _ _, ?_, le_max_left _ _, ?_⟩
  · intro h
    exact max_eq_right (sub_nonneg.mpr h)
  · intro h
    simp only [salesService.calculateFinalAmount, parseFloatOfNumber, Option.getD_none,
      sub_zero]
    exact max_eq_right h

/-- The instance of C12 at a subtotal of 240: a discount of 40 leaves 200,
and without a discount the amount is the subtotal. -/
theorem C12_calculateFinalAmount_witness :
    salesService.calculateFinalAmount 240 (some 40) = 240 - 40 ∧
    salesService.calculateFinalAmount 240 none = 240 :=
  ⟨(C12_calculateFinalAmount 240 40).2.2.1 (by norm_num),
   (C12_calculateFinalAmount 240 40).2.2.2.2 (by norm_num)⟩

/-- C13: for every list of items, `calculateTotal(items)` is the sum over
the items of `unitPrice * quantity` (exact arithmetic): it is 0 for the empty
list, it is additive over concatenation, and it is non-negative whenever
every unit price and quantity is non-negative. -/
theorem C13_calculateTotal (items xs ys : List CartItem) :
    salesService.calculateTotal items =
      (items.map fun item => item.unitPrice * (item.quantity : ℚ)).sum ∧
    salesService.calculateTotal [] = 0 ∧
    salesService.calculateTotal (xs ++ ys) =
      salesService.calculateTotal xs + salesService.calculateTotal ys ∧
    ((∀ item ∈ items, 0 ≤ item.unitPrice ∧ 0 ≤ item.quantity) →
      0 ≤ salesService.calculateTotal items) := by
  have hsum : ∀ l : List CartItem, salesService.calculateTotal l =
      (l.map fun item => item.unitPrice * (item.quantity : ℚ)).sum := by
    intro l
    unfold salesService.calculateTotal
    rw [foldl_add_eq_sum (fun item => item.unitPrice * (item.quantity : ℚ))]
    simp
  refine ⟨hsum items, rfl, ?_, ?_⟩
  · rw [hsum, hsum, hsum, List.map_append, List.sum_append]
  · intro hnonneg
    rw [hsum]
    apply List.sum_nonneg
    intro x hx
    obtain ⟨item, hitem, rfl⟩ := List.mem_map.mp hx
    obtain ⟨hp, hq⟩ := hnonneg item hitem
    exact mul_nonneg hp (by exact_mod_cast hq)

/-- The instance of C13 on the sample cart: its prices and quantities are
non-negative, so its total is. -/
theorem C13_calculateTotal_witness :
    (∀ item ∈ sampleCart, 0 ≤ item.unitPrice ∧ 0 ≤ item.quantity) ∧
    0 ≤ salesService.calculateTotal sampleCart :=
  have h : ∀ item ∈ sampleCart, 0 ≤ item.unitPrice ∧ 0 ≤ item.quantity := by
    intro item hitem
    simp only [sampleCart, List.mem_singleton] at hitem
    subst hitem
    constructor <;> norm_num
  ⟨h, (C13_calculateTotal sampleCart [] []).2.2.2 h⟩

/-! ### The `items` string -/

/-- A decimal digit is none of the comma, the colon and the minus sign. -/
theorem digitChar_plain (d : Nat) (h : d < 10) :
    Nat.digitChar d ≠ ',' ∧ Nat.digitChar d ≠ ':' ∧ Nat.digitChar d ≠ '-' := by
  interval_cases d <;> decide

/-- The digits of a number hold no comma, colon or minus sign. -/
theorem toDigitsCore_plain (fuel : Nat) : ∀ (n : Nat) (acc : List Char),
    (∀ c ∈ acc, c ≠ ',' ∧ c ≠ ':' ∧ c ≠ '-') →
    ∀ c ∈ Nat.toDigitsCore 10 fuel n acc, c ≠ ',' ∧ c ≠ ':' ∧ c ≠ '-' := by
  induction fuel with
  | zero => intro n acc hacc c hc; simpa [Nat.toDigitsCore] using hacc c hc
  | succ fuel ih =>
    intro n acc hacc c hc
    unfold Nat.toDigitsCore at hc
    have hd := digitChar_plain (n % 10) (Nat.mod_lt _ (by norm_num))
    have hacc2 : ∀ c ∈ Nat.digitChar (n % 10) :: acc, c ≠ ',' ∧ c ≠ ':' ∧ c ≠ '-' := by
      intro c hc
      rcases List.mem_cons.mp hc with rfl | hc
      · exact hd
      · exact hacc c hc
    simp only at hc
    split at hc
    · exact hacc2 c hc
    · exact ih _ _ hacc2 c hc

/-- The text of a natural number holds no comma, colon or minus sign. -/
theorem nat_toString_plain (n : Nat) :
    ∀ c ∈ (toString n).toList, c ≠ ',' ∧ c ≠ ':' ∧ c ≠ '-' := by
  intro c hc
  have hrepr : (toString n).toList = Nat.toDigits 10 n := rfl
  rw [hrepr] at hc
  exact toDigitsCore_plain _ _ _ (by simp) c hc

/-- The text of an integer holds no comma and no colon. -/
theorem int_toString_plain (q : Int) : ∀ c ∈ (toString q).toList, c ≠ ',' ∧ c ≠ ':' := by
  intro c hc
  cases q with
  | ofNat m => exact ⟨(nat_toString_plain m c hc).1, (nat_toString_plain m c hc).2.1⟩
  | negSucc m =>
    have hrepr : (toString (Int.negSucc m)).toList = '-' :: (toString (m + 1)).toList := rfl
    rw [hrepr] at hc
    rcases List.mem_cons.mp hc with rfl | hc
    · decide
    · exact ⟨(nat_toString_plain _ c hc).1, (nat_toString_plain _ c hc).2.1⟩

/-- A digit character reads back as its digit. -/
theorem digitValue_digitChar (d : Nat) (h : d < 10) : digitValue (Nat.digitChar d) = d := by
  interval_cases d <;> decide

/-- Reading the digits of a number gives the number back. -/
theorem decodeDigits_toDigitsCore (fuel : Nat) : ∀ (n : Nat) (acc : List Char), n < fuel →
    decodeDigits (Nat.toDigitsCore 10 fuel n acc) 0 = decodeDigits acc n := by
  induction fuel with
  | zero => intro n acc h; omega
  | succ fuel ih =>
    intro n acc h
    unfold Nat.toDigitsCore
    simp only
    have hv := digitValue_digitChar (n % 10) (Nat.mod_lt _ (by norm_num))
    split
    · rename_i h0
      have hn : n % 10 = n := by omega
      rw [hn] at hv
      simp only [decodeDigits, List.foldl_cons, Nat.zero_mul, Nat.zero_add, hn, hv]
    · rename_i h0
      rw [ih (n / 10) _ (by omega)]
      simp only [decodeDigits, List.foldl_cons, hv]
      congr 1
      omega

/-- Distinct natural numbers have distinct texts. -/
theorem nat_toString_injective (n m : Nat) (h : toString n = toString m) : n = m := by
  have hn : (toString n).toList = Nat.toDigits 10 n := rfl
  have hm : (toString m).toList = Nat.toDigits 10 m := rfl
  have h2 : Nat.toDigits 10 n = Nat.toDigits 10 m := by rw [← hn, ← hm, h]
  have dn := decodeDigits_toDigitsCore (n + 1) n [] (by omega)
  have dm := decodeDigits_toDigitsCore (m + 1) m [] (by omega)
  unfold Nat.toDigits at h2
  rw [h2, dm] at dn
  simpa [decodeDigits] using dn.symm

/-- Distinct quantities have distinct texts. -/
theorem int_toString_injective (q r : Int) (h : toString q = toString r) : q = r := by
  have hneg : ∀ m : Nat, (toString (Int.negSucc m)).toList = '-' :: (toString (m + 1)).toList :=
    fun _ => rfl
  have hpos : ∀ m : Nat, toString (Int.ofNat m) = toString m := fun _ => rfl
  cases q with
  | ofNat n =>
    cases r with
    | ofNat m =>
      rw [hpos, hpos] at h
      rw [nat_toString_injective n m h]
    | negSucc m =>
      exfalso
      have hmem : '-' ∈ (toString n).toList := by
        rw [← hpos, h, hneg]
        exact List.mem_cons_self _ _
      exact (nat_toString_plain n _ hmem).2.2 rfl
  | negSucc n =>
    cases r with
    | ofNat m =>
      exfalso
      have hmem : '-' ∈ (toString m).toList := by
        rw [← hpos, ← h, hneg]
        exact List.mem_cons_self _ _
      exact (nat_toString_plain m _ hmem).2.2 rfl
    | negSucc m =>
      have hl : (toString (n + 1)).toList = (toString (m + 1)).toList := by
        have h3 := congrArg String.toList h
        rw [hneg, hneg] at h3
        exact List.tail_eq_of_cons_eq h3
      have hs : toString (n + 1) = toString (m + 1) := String.ext hl
      have hnm := nat_toString_injective _ _ hs
      have : n = m := by omega
      rw [this]

/-- The characters of a joined list: the pieces with a comma between
neighbours. -/
theorem join_toList (l : List String) :
    (join "," l).toList = [','].intercalate (l.map String.toList) := by
  induction l with
  | nil => rfl
  | cons a rest ih =>
    cases rest with
    | nil => simp [join, List.intercalate]
    | cons b rest =>
      have ih2 : (join "," (b :: rest)).data =
          [','].intercalate ((b :: rest).map String.toList) := ih
      show (a ++ "," ++ join "," (b :: rest)).data = _
      rw [String.data_append, String.data_append, ih2]
      simp [List.intercalate, String.toList]

/-- Splitting a joined non-empty list of comma-free pieces gives the pieces. -/
theorem split_join (l : List String) (hne : l ≠ [])
    (hl : ∀ s ∈ l, ',' ∉ s.toList) : split ',' (join "," l) = l := by
  unfold split
  rw [join_toList, List.splitOn_intercalate]
  · simp [List.map_map, Function.comp_def, String.toList]
  · intro x hx
    obtain ⟨s, hs, rfl⟩ := List.mem_map.mp hx
    exact hl s hs
  · simpa using hne

/-- Splitting `a:b` on the colon gives `a` and `b` when neither holds one. -/
theorem split_colon (a b : String) (ha : ':' ∉ a.toList) (hb : ':' ∉ b.toList) :
    split ':' (a ++ ":" ++ b) = [a, b] := by
  unfold split
  have h : (a ++ ":" ++ b).toList = [':'].intercalate [a.toList, b.toList] := by
    show (a ++ ":" ++ b).data = _
    rw [String.data_append, String.data_append]
    simp [List.intercalate, String.toList]
  rw [h, List.splitOn_intercalate]
  · simp [String.toList]
  · intro x hx
    simp only [List.mem_cons, List.mem_singleton, List.not_mem_nil, or_false] at hx
    rcases hx with rfl | rfl
    · exact ha
    · exact hb
  · simp

/-- C14: `formatItemsForApi(items)` is the string of `productId:quantity`
entries in the order of the items, separated by single commas: the empty
string for the empty list, the entry alone for one item, and otherwise the
first entry, a comma and the string of the remaining items. When no
productId holds a comma or a colon, splitting the string of a non-empty list
on the comma and each piece on the colon recovers the productId and the
quantity text of every item, in order, and the quantity text determines the
quantity. -/
theorem C14_formatItemsForApi (items : List CartItem) :
    salesService.formatItemsForApi [] = "" ∧
    (∀ item, salesService.formatItemsForApi [item] =
      item.productId ++ ":" ++ toString item.quantity) ∧
    (∀ item next rest, salesService.formatItemsForApi (item :: next :: rest) =
      item.productId ++ ":" ++ toString item.quantity ++ "," ++
        salesService.formatItemsForApi (next :: rest)) ∧
    (items ≠ [] →
      (∀ item ∈ items, ',' ∉ item.productId.toList ∧ ':' ∉ item.productId.toList) →
      (split ',' (salesService.formatItemsForApi items)).map (split ':') =
        items.map fun item => [item.productId, toString item.quantity]) ∧
    (∀ q r : Int, toString q = toString r → q = r) := by
  refine ⟨rfl, fun _ => rfl, fun _ _ _ => rfl, ?_, int_toString_injective⟩
  intro hne hids
  unfold salesService.formatItemsForApi
  rw [split_join]
  · rw [List.map_map]
    apply List.map_congr_left
    intro item hitem
    exact split_colon _ _ (hids item hitem).2
      (fun hc => (int_toString_plain item.quantity _ hc).2 rfl)
  · simpa using hne
  · intro entry hentry
    obtain ⟨item, hitem, rfl⟩ := List.mem_map.mp hentry
    intro hc
    have hdata : (salesService.formatItem item).toList =
        item.productId.toList ++ (':' :: (toString item.quantity).toList) := by
      show (item.productId ++ ":" ++ toString item.quantity).data = _
      rw [String.data_append, String.data_append]
      simp [String.toList]
    rw [hdata] at hc
    rcases List.mem_append.mp hc with h1 | h1
    · exact (hids item hitem).1 h1
    · rcases List.mem_cons.mp h1 with h2 | h2
      · exact absurd h2 (by decide)
      · exact (int_toString_plain item.quantity _ h2).1 rfl

/-- The instance of C14 on the sample cart: the string is `P-1:2`, and
splitting it gives the productId and the quantity text back. -/
theorem C14_formatItemsForApi_witness :
    salesService.formatItemsForApi sampleCart = "P-1:2" ∧
    (split ',' (salesService.formatItemsForApi sampleCart)).map (split ':') = [["P-1", "2"]] :=
  ⟨by decide,
   (C14_formatItemsForApi sampleCart).2.2.2.1 (by decide)
    (by
      intro item hitem
      simp only [sampleCart, List.mem_singleton] at hitem
      subst hitem
      decide)⟩

/-! ### Submitting a sale -/

/-- C15: `onSubmit` with an empty `selectedItems` is rejected with "Please
select at least one product": `createSale` is not called, nothing is
navigated to and no state setter runs, so `creating` and `selectedItems`
stay as they were; with a non-empty list exactly one `createSale` call is
made, and `selectedItems` is never set. -/
theorem C15_onSubmit_empty_cart_rejected (selectedItems : List CartItem)
    (formData : SaleFormData) (outcome : Except ApiError SaleCreated) :
    (selectedItems = [] →
      CreateSalePage.onSubmit selectedItems formData outcome =
        { toasts := [.error "Please select at least one product"], setCreating := [],
          setSelectedItems := [], createSale := [], navigate := [] }) ∧
    (selectedItems ≠ [] →
      (CreateSalePage.onSubmit selectedItems formData outcome).createSale.length = 1) ∧
    (CreateSalePage.onSubmit selectedItems formData outcome).setSelectedItems = [] := by
  have hlen : selectedItems.length = 0 ↔ selectedItems = [] := List.length_eq_zero
  refine ⟨?_, ?_, ?_⟩
  · intro h
    subst h
    rfl
  · intro h
    have h0 : ¬ selectedItems.length = 0 := fun hl => h (hlen.mp hl)
    unfold CreateSalePage.onSubmit
    simp only [h0, if_false]
    cases outcome with
    | ok body => rfl
    | error e => rfl
  · unfold CreateSalePage.onSubmit
    by_cases h0 : selectedItems.length = 0
    · simp only [h0, if_true]
    · simp only [h0, if_false]
      cases outcome with
      | ok body => rfl
      | error e => rfl

/-- The instance of C15 on the sample form: with an empty cart the only
effect is the error toast, and with the sample cart one sale is sent. -/
theorem C15_onSubmit_empty_cart_rejected_witness :
    CreateSalePage.onSubmit [] sampleForm (.ok { saleNumber := "S-9", saleId := "9" }) =
      { toasts := [.error "Please select at least one product"], setCreating := [],
        setSelectedItems := [], createSale := [], navigate := [] } ∧
    (CreateSalePage.onSubmit sampleCart sampleForm
      (.ok { saleNumber := "S-9", saleId := "9" })).createSale.length = 1 :=
  ⟨(C15_onSubmit_empty_cart_rejected [] sampleForm
      (.ok { saleNumber := "S-9", saleId := "9" })).1 rfl,
   (C15_onSubmit_empty_cart_rejected sampleCart sampleForm
      (.ok { saleNumber := "S-9", saleId := "9" })).2.1 (by decide)⟩

/-! ### Results of the request methods -/

/-- C16 fails as stated: `deleteProduct` resolves on success to an object
without `data`, so its `data` is not the response body. -/
theorem C16_service_methods_result_counterexample :
    ¬ (∀ (call : ProductCall) (body : String),
        ((productService.call call : ServiceCall JsObject String).resolve (.ok body)).success
            = true ∧
          ((productService.call call : ServiceCall JsObject String).resolve (.ok body)).data
            = some body) := by
  intro h
  have h1 := (h (.deleteProduct "7") "deleted").2
  exact absurd h1 (by decide)

/-- The result objects of the request methods, by how the request settles:
on success `success = true`, no error, and `data` the response body except
for `deleteProduct` and `bulkDeleteProducts`, which have none; on failure
`success = false`, `error = handleApiError(e)` and its message. -/
theorem service_methods_resolve {δ : Type} (call : ProductCall) (userCall : UserCall)
    (outcome : Except ApiError δ) :
    (∀ body, outcome = .ok body →
      ((productService.call call : ServiceCall JsObject δ).resolve outcome).success = true ∧
      ((productService.call call : ServiceCall JsObject δ).resolve outcome).error = none ∧
      ((∀ id, call ≠ .deleteProduct id) → (∀ ids, call ≠ .bulkDeleteProducts ids) →
        ((productService.call call : ServiceCall JsObject δ).resolve outcome).data
          = some body) ∧
      (((∃ id, call = .deleteProduct id) ∨ (∃ ids, call = .bulkDeleteProducts ids)) →
        ((productService.call call : ServiceCall JsObject δ).resolve outcome).data = none) ∧
      ((userService.call userCall : ServiceCall JsObject δ).resolve outcome).success = true ∧
      ((userService.call userCall : ServiceCall JsObject δ).resolve outcome).error = none ∧
      ((userService.call userCall : ServiceCall JsObject δ).resolve outcome).data
        = some body) ∧
    (∀ e, outcome = .error e →
      ((productService.call call : ServiceCall JsObject δ).resolve outcome).success = false ∧
      ((productService.call call : ServiceCall JsObject δ).resolve outcome).error
        = some (handleApiError e) ∧
      ((productService.call call : ServiceCall JsObject δ).resolve outcome).message
        = (handleApiError e).message ∧
      ((userService.call userCall : ServiceCall JsObject δ).resolve outcome).success = false ∧
      ((userService.call userCall : ServiceCall JsObject δ).resolve outcome).error
        = some (handleApiError e) ∧
      ((userService.call userCall : ServiceCall JsObject δ).resolve outcome).message
        = (handleApiError e).message) ∧
    (((productService.call call : ServiceCall JsObject δ).resolve outcome).success = true ↔
      ∃ body, outcome = .ok body) ∧
    (((userService.call userCall : ServiceCall JsObject δ).resolve outcome).success = true ↔
      ∃ body, outcome = .ok body) := by
  refine ⟨?_, ?_, ?_, ?_⟩
  · intro body hok
    subst hok
    refine ⟨?_, ?_, ?_, ?_, ?_, ?_, ?_⟩
    · cases call <;> rfl
    · cases call <;> rfl
    · intro hd hb
      cases call <;> first | rfl | exact absurd rfl (hd _) | exact absurd rfl (hb _)
    · intro h
      rcases h with ⟨id, rfl⟩ | ⟨ids, rfl⟩ <;> rfl
    · cases userCall <;> rfl
    · cases userCall <;> rfl
    · cases userCall <;> rfl
  · intro e herr
    subst herr
    refine ⟨?_, ?_, ?_, ?_, ?_, ?_⟩
    · cases call <;> rfl
    · cases call <;> rfl
    · cases call <;> rfl
    · cases userCall <;> rfl
    · cases userCall <;> rfl
    · cases userCall <;> rfl
  · cases outcome with
    | ok body =>
      constructor
      · intro _
        exact ⟨body, rfl⟩
      · intro _
        cases call <;> rfl
    | error e =>
      constructor
      · intro h
        have hf : ((productService.call call : ServiceCall JsObject δ).resolve
            (.error e)).success = false := by
          cases call <;> rfl
        rw [hf] at h
        exact absurd h Bool.false_ne_true
      · rintro ⟨body, hb⟩
        cases hb
  · cases outcome with
    | ok body =>
      constructor
      · intro _
        exact ⟨body, rfl⟩
      · intro _
        cases userCall <;> rfl
    | error e =>
      constructor
      · intro h
        have hf : ((userService.call userCall : ServiceCall JsObject δ).resolve
            (.error e)).success = false := by
          cases userCall <;> rfl
        rw [hf] at h
        exact absurd h Bool.false_ne_true
      · rintro ⟨body, hb⟩
        cases hb

/-- Running a request method sends its one request and resolves to the
result for the way the backend settles that request. -/
theorem ServiceCall.run_eq {β δ : Type} (call : ServiceCall β δ)
    (backend : HttpRequest β → Except ApiError δ) (log : List (HttpRequest β)) :
    call.run backend log = (.ok (call.resolve (backend call.request)), log ++ [call.request]) := by
  unfold ServiceCall.run Async.tryCatch Async.bind Async.request Async.pure
  cases h : backend call.request <;> simp [h]

/-- C16 (amended): every request method of `productService` and
`userService` never throws and issues exactly one HTTP request: run against
any backend it resolves to a result and the log of requests grows by the
one request of the method. The result has `success = true` exactly when the
request succeeds, and then no error and `data` equal to the response body
unchanged for every method except `deleteProduct` and `bulkDeleteProducts`,
whose success object has no `data`. When the request fails with `e` the
result has `success = false`, `error = handleApiError(e)` and
`message = handleApiError(e).message`. -/
theorem C16_service_methods_result {δ : Type} (call : ProductCall) (userCall : UserCall)
    (backend : HttpRequest JsObject → Except ApiError δ) (log : List (HttpRequest JsObject)) :
    (∃ result : ServiceResult δ,
      (productService.call call).run backend log
        = (.ok result, log ++ [(productService.call call : ServiceCall JsObject δ).request]) ∧
      (∀ body, backend (productService.call call : ServiceCall JsObject δ).request = .ok body →
        result.success = true ∧ result.error = none ∧
        ((∀ id, call ≠ .deleteProduct id) → (∀ ids, call ≠ .bulkDeleteProducts ids) →
          result.data = some body) ∧
        (((∃ id, call = .deleteProduct id) ∨ (∃ ids, call = .bulkDeleteProducts ids)) →
          result.data = none)) ∧
      (∀ e, backend (productService.call call : ServiceCall JsObject δ).request = .error e →
        result.success = false ∧ result.error = some (handleApiError e) ∧
        result.message = (handleApiError e).message) ∧
      (result.success = true ↔
        ∃ body, backend (productService.call call : ServiceCall JsObject δ).request
          = .ok body)) ∧
    (∃ result : ServiceResult δ,
      (userService.call userCall).run backend log
        = (.ok result, log ++ [(userService.call userCall : ServiceCall JsObject δ).request]) ∧
      (∀ body, backend (userService.call userCall : ServiceCall JsObject δ).request = .ok body →
        result.success = true ∧ result.error = none ∧ result.data = some body) ∧
      (∀ e, backend (userService.call userCall : ServiceCall JsObject δ).request = .error e →
        result.success = false ∧ result.error = some (handleApiError e) ∧
        result.message = (handleApiError e).message) ∧
      (result.success = true ↔
        ∃ body, backend (userService.call userCall : ServiceCall JsObject δ).request
          = .ok body)) := by
  constructor
  · have h := service_methods_resolve call userCall
      (backend (productService.call call : ServiceCall JsObject δ).request)
    refine ⟨_, ServiceCall.run_eq _ backend log, ?_, ?_, h.2.2.1⟩
    · intro body hb
      obtain ⟨h1, h2, h3, h4, _⟩ := h.1 body hb
      exact ⟨h1, h2, h3, h4⟩
    · intro e he
      obtain ⟨h1, h2, h3, _⟩ := h.2.1 e he
      exact ⟨h1, h2, h3⟩
  · have h := service_methods_resolve call userCall
      (backend (userService.call userCall : ServiceCall JsObject δ).request)
    refine ⟨_, ServiceCall.run_eq _ backend log, ?_, ?_, h.2.2.2⟩
    · intro body hb
      obtain ⟨_, _, _, _, h5, h6, h7⟩ := h.1 body hb
      exact ⟨h5, h6, h7⟩
    · intro e he
      obtain ⟨_, _, _, h4, h5, h6⟩ := h.2.1 e he
      exact ⟨h4, h5, h6⟩

/-- The instance of amended C16 for `deleteProduct` and `registerCustomer`
against a backend that answers every request with a body, and for
`getProductById` against a backend that answers with a 404: each run sends
one request and resolves. -/
theorem C16_service_methods_result_witness :
    (∃ result : ServiceResult String,
      (productService.call (.deleteProduct "7")).run (fun _ => .ok "body") []
        = (.ok result, [(productService.call (.deleteProduct "7") :
            ServiceCall JsObject String).request]) ∧
      result.success = true ∧ result.data = none) ∧
    (∃ result : ServiceResult String,
      (userService.call (.registerCustomer [])).run (fun _ => .ok "body") []
        = (.ok result, [(userService.call (.registerCustomer []) :
            ServiceCall JsObject String).request]) ∧
      result.success = true ∧ result.data = some "body") ∧
    (∃ result : ServiceResult String,
      (productService.call (.getProductById "7")).run (fun _ => .error sampleNotFound) []
        = (.ok result, [(productService.call (.getProductById "7") :
            ServiceCall JsObject String).request]) ∧
      result.success = false ∧ result.message = "Product not found") := by
  refine ⟨?_, ?_, ?_⟩
  · obtain ⟨result, hrun, hok, _, _⟩ :=
      (C16_service_methods_result (.deleteProduct "7") (.registerCustomer [])
        (fun _ => (.ok "body" : Except ApiError String)) []).1
    exact ⟨result, hrun, (hok "body" rfl).1, (hok "body" rfl).2.2.2 (Or.inl ⟨"7", rfl⟩)⟩
  · obtain ⟨result, hrun, hok, _, _⟩ :=
      (C16_service_methods_result (.deleteProduct "7") (.registerCustomer [])
        (fun _ => (.ok "body" : Except ApiError String)) []).2
    exact ⟨result, hrun, (hok "body" rfl).1, (hok "body" rfl).2.2⟩
  · obtain ⟨result, hrun, _, herr, _⟩ :=
      (C16_service_methods_result (.getProductById "7") (.registerCustomer [])
        (fun _ => (.error sampleNotFound : Except ApiError String)) []).1
    have h := herr sampleNotFound rfl
    exact ⟨result, hrun, h.1, h.2.2.trans (by decide)⟩

/-! ### Classification of request errors -/

/-- `includes` holds exactly when the needle occurs in the text. -/
theorem includes_iff (haystack needle : String) :
    includes haystack needle = true ↔
      ∃ before after : String, haystack = before ++ needle ++ after := by
  unfold includes
  rw [List.any_eq_true]
  constructor
  · rintro ⟨t, ht, hp⟩
    rw [List.mem_tails] at ht
    rw [List.isPrefixOf_iff_prefix] at hp
    obtain ⟨a, ha⟩ := ht
    obtain ⟨b, hb⟩ := hp
    refine ⟨String.mk a, String.mk b, String.ext ?_⟩
    show haystack.data = (String.mk a ++ needle ++ String.mk b).data
    rw [String.data_append, String.data_append]
    show haystack.toList = a ++ needle.toList ++ b
    rw [← ha, ← hb, List.append_assoc]
  · rintro ⟨before, after, h⟩
    refine ⟨needle.toList ++ after.toList, ?_, ?_⟩
    · rw [List.mem_tails]
      refine ⟨before.toList, ?_⟩
      rw [h]
      show _ = (before ++ needle ++ after).data
      rw [String.data_append, String.data_append, List.append_assoc]
      rfl
    · rw [List.isPrefixOf_iff_prefix]
      exact List.prefix_append _ _

/-- The `||` default on texts never gives an empty text when the default is
not empty. -/
theorem orElseString_ne_empty (a : Option String) (b : String) (hb : b ≠ "") :
    orElseString a b ≠ "" := by
  unfold orElseString
  cases a with
  | none => exact hb
  | some s =>
    by_cases hs : s = ""
    · simp [hs, hb]
    · simp [hs]

/-- C17: `handleApiError` is total and classifies every error object. With
a response, the result has the status and the data of the response, and its
message is the `message` of the data when that is a non-empty text and "An
error occurred" otherwise. Without a response, the status is 0 and the data
`null`. The result carries the type `CORS_ERROR` if and only if the error
has a request, has no response, and its message contains "CORS" or its code
is `ERR_NETWORK`. In every case the returned message is a non-empty text. -/
theorem C17_handleApiError_classifies (error : ApiError) :
    (∀ response, error.response = some response →
      (handleApiError error).status = response.status ∧
      (handleApiError error).data = response.data ∧
      (∀ m, response.data.bind ErrorBody.message = some m → m ≠ "" →
        (handleApiError error).message = m) ∧
      ((response.data.bind ErrorBody.message = none ∨
          response.data.bind ErrorBody.message = some "") →
        (handleApiError error).message = "An error occurred")) ∧
    (error.response = none →
      (handleApiError error).status = 0 ∧ (handleApiError error).data = none) ∧
    ((handleApiError error).type = some "CORS_ERROR" ↔
      error.request = true ∧ error.response = none ∧
        ((∃ before after : String, error.message = before ++ "CORS" ++ after) ∨
          error.code = some "ERR_NETWORK")) ∧
    (handleApiError error).message ≠ "" := by
  refine ⟨?_, ?_, ?_, ?_⟩
  · intro response hresp
    simp only [handleApiError, hresp]
    refine ⟨trivial, trivial, ?_, ?_⟩
    · intro m hm hne
      simp [orElseString, hm, hne]
    · intro h
      rcases h with h | h <;> simp [orElseString, h]
  · intro hresp
    simp only [handleApiError, hresp]
    by_cases hreq : error.request = true
    · by_cases hcors : (includes error.message "CORS" || error.code == some "ERR_NETWORK") = true
      · simp [hreq, hcors]
      · simp [hreq, hcors]
    · simp [hreq]
  · rw [← includes_iff]
    cases hresp : error.response with
    | some response => simp [handleApiError, hresp]
    | none =>
      simp only [handleApiError, hresp]
      by_cases hreq : error.request = true
      · by_cases hcors : (includes error.message "CORS" || error.code == some "ERR_NETWORK") = true
        · have hc := hcors
          simp only [Bool.or_eq_true, beq_iff_eq] at hc
          simp [hreq, hcors, hc]
        · have hc := hcors
          simp only [Bool.or_eq_true, beq_iff_eq] at hc
          simp [hreq, hcors, hc]
      · simp [hreq]
  · cases hresp : error.response with
    | some response =>
      simp only [handleApiError, hresp]
      exact orElseString_ne_empty (response.data.bind ErrorBody.message) "An error occurred"
        (by decide)
    | none =>
      simp only [handleApiError, hresp]
      by_cases hreq : error.request = true
      · by_cases hcors : (includes error.message "CORS" || error.code == some "ERR_NETWORK") = true
        · simp only [hreq, hcors, if_true]
          decide
        · simp only [hreq, hcors, if_true, if_false]
          decide
      · simp only [hreq, if_false]
        exact orElseString_ne_empty (some error.message) "An unexpected error occurred"
          (by decide)

/-- The instance of C17 on a 404 answer and on a request without answer:
the first keeps the status and the message of the backend, the second is
classified as `CORS_ERROR` with status 0. -/
theorem C17_handleApiError_classifies_witness :
    (handleApiError sampleNotFound).status = 404 ∧
    (handleApiError sampleNotFound).message = "Product not found" ∧
    (handleApiError sampleNetworkError).status = 0 ∧
    (handleApiError sampleNetworkError).type = some "CORS_ERROR" :=
  ⟨((C17_handleApiError_classifies sampleNotFound).1 _ rfl).1,
   ((C17_handleApiError_classifies sampleNotFound).1 _ rfl).2.2.1 "Product not found" rfl
      (by decide),
   ((C17_handleApiError_classifies sampleNetworkError).2.1 rfl).1,
   (C17_handleApiError_classifies sampleNetworkError).2.2.1.mpr
      ⟨rfl, rfl, Or.inr rfl⟩⟩

/-! ### Endpoints of `productService` -/

/-- A text that starts with a prefix still starts with it when extended. -/
theorem startsWith_append (s p rest : String) (h : startsWith s p = true) :
    startsWith (s ++ rest) p = true := by
  unfold startsWith at h ⊢
  rw [List.isPrefixOf_iff_prefix] at h ⊢
  have hdata : (s ++ rest).toList = s.toList ++ rest.toList := by
    show (s ++ rest).data = _
    rw [String.data_append]
    rfl
  rw [hdata]
  exact List.IsPrefix.trans h (List.prefix_append _ _)

/-- Every `productService` method other than `searchProducts` sends its
request to a URL that starts with `/api/products`. -/
theorem productService_urls_start_with_api_products {δ : Type} (call : ProductCall)
    (hcall : ∀ query filters, call ≠ .searchProducts query filters) :
    ∃ url, (productService.call call : ServiceCall JsObject δ).request.url = some url ∧
      startsWith url "/api/products" = true := by
  have hbase : startsWith (productService.endpoint "BASE") "/api/products" = true := by decide
  have hbooks : startsWith (productService.endpoint "BOOKS") "/api/products" = true := by decide
  have hstat : startsWith (productService.endpoint "STATIONARY") "/api/products" = true := by
    decide
  have hlow : startsWith (productService.endpoint "LOW_STOCK") "/api/products" = true := by
    decide
  cases call with
  | getAllProducts params => exact ⟨"/api/products", rfl, by decide⟩
  | getProductById id =>
    exact ⟨_, rfl, startsWith_append _ _ _ (startsWith_append _ _ _ hbase)⟩
  | createBook bookData => exact ⟨"/api/products/book", rfl, by decide⟩
  | createStationary stationaryData => exact ⟨"/api/products/stationary", rfl, by decide⟩
  | updateProduct id productData =>
    exact ⟨_, rfl, startsWith_append _ _ _ (startsWith_append _ _ _ hbase)⟩
  | deleteProduct id =>
    exact ⟨_, rfl, startsWith_append _ _ _ (startsWith_append _ _ _ hbase)⟩
  | getBooks params => exact ⟨"/api/products/books", rfl, by decide⟩
  | getStationary params => exact ⟨"/api/products/stationary", rfl, by decide⟩
  | searchProducts query filters => exact absurd rfl (hcall query filters)
  | getLowStockProducts threshold =>
    exact ⟨_, rfl, startsWith_append _ _ _ (startsWith_append _ _ _ hlow)⟩
  | getBooksByGenre genre =>
    exact ⟨_, rfl, startsWith_append _ _ _ (startsWith_append _ _ _ hbooks)⟩
  | getBooksByAuthor author =>
    exact ⟨_, rfl, startsWith_append _ _ _ (startsWith_append _ _ _ hbooks)⟩
  | getStationaryByType type =>
    exact ⟨_, rfl, startsWith_append _ _ _ (startsWith_append _ _ _ hstat)⟩
  | getStationaryByBrand brand =>
    exact ⟨_, rfl, startsWith_append _ _ _ (startsWith_append _ _ _ hstat)⟩
  | updateStock id quantity =>
    exact ⟨_, rfl,
      startsWith_append _ _ _ (startsWith_append _ _ _ (startsWith_append _ _ _ hbase))⟩
  | bulkUpdateProducts updates => exact ⟨_, rfl, startsWith_append _ _ _ hbase⟩
  | bulkDeleteProducts ids => exact ⟨_, rfl, startsWith_append _ _ _ hbase⟩

/-- C18 (the code departs from the claim): `searchProducts(query, filters)`
sends a GET request with the query parameters `q: query` merged with the
filters, but the URL it hands to axios is `undefined`: the `API_ENDPOINTS`
table local to `productService.js` has no `SEARCH` entry, while the table of
`utils/constants.js` has `/api/products/search`. So the request goes to no
URL that starts with `/api/products`. -/
theorem C18_searchProducts_url_undefined {δ : Type} (query : String) (filters : JsObject) :
    (productService.searchProducts query filters : ServiceCall JsObject δ).request.verb
      = .GET ∧
    (productService.searchProducts query filters : ServiceCall JsObject δ).request.params
      = some (spread [("q", query)] filters) ∧
    (productService.searchProducts query filters : ServiceCall JsObject δ).request.url
      = none ∧
    (¬ ∃ url,
      (productService.searchProducts query filters : ServiceCall JsObject δ).request.url
        = some url ∧ startsWith url "/api/products" = true) ∧
    getProp productService.API_ENDPOINTS.PRODUCTS "SEARCH" = none ∧
    getProp API_ENDPOINTS.PRODUCTS "SEARCH" = some "/api/products/search" := by
  have hurl : (productService.searchProducts query filters :
      ServiceCall JsObject δ).request.url = none := rfl
  refine ⟨rfl, rfl, hurl, ?_, by decide, by decide⟩
  rintro ⟨url, h, _⟩
  rw [hurl] at h
  cases h

/-! ### Creating a product through the hook -/

/-- C19 (the code departs from the claim): `useProducts.createProduct`
calls `productService.createProduct`, which the service object does not
have; the call throws inside the `try`, so for every product and whatever
the backend would answer no request is sent, the list is not refetched, and
the hook shows "Failed to create product" and returns `success: false`. -/
theorem C19_createProduct_always_fails {δ : Type} (productData : JsObject)
    (outcome : Except ApiError δ) :
    useProducts.createProduct productData outcome =
      { toasts := [.error "Failed to create product"], requests := [], refetched := false,
        result := { success := false, message := some "Failed to create product" } } ∧
    "createProduct" ∉ productService.methodNames ∧
    "createBook" ∈ productService.methodNames ∧
    "createStationary" ∈ productService.methodNames := by
  refine ⟨rfl, by decide, by decide, by decide⟩

/-! ### Paging of the sales table -/

/-- C20 (the code departs from the claim): `SalesPage` passes
`pagination = { enabled: true, pageSize: 20 }`, which `DataTable` reads only
for its truthiness; the `pageSize` prop keeps its default 10. So page 1
shows the first 10 sales and the table has `ceil(n / 10)` pages: for 15
sales, 10 rows and 2 pages, where a page size of 20 would give 15 rows and
1 page. -/
theorem C20_sales_table_page_size_is_ten {ρ : Type} (filteredSales : List ρ)
    (loading : Bool) :
    (SalesPage.tableProps filteredSales loading).pageSize = 10 ∧
    DataTable.paginatedData (SalesPage.tableProps filteredSales loading) 1
      = filteredSales.take 10 ∧
    DataTable.totalPages (SalesPage.tableProps filteredSales loading)
      = Nat.ceil ((filteredSales.length : ℚ) / 10) ∧
    (DataTable.paginatedData (SalesPage.tableProps (List.range 15) false) 1).length = 10 ∧
    min 20 (List.range 15).length = 15 ∧
    DataTable.totalPages (SalesPage.tableProps (List.range 15) false) = 2 ∧
    Nat.ceil (((List.range 15).length : ℚ) / 20) = 1 := by
  refine ⟨rfl, ?_, ?_, by decide, by decide, ?_, ?_⟩
  · simp [DataTable.paginatedData, SalesPage.tableProps, PaginationProp.truthy, slice]
  · simp [DataTable.totalPages, SalesPage.tableProps]
  · simp only [DataTable.totalPages, SalesPage.tableProps, List.length_range]
    norm_num [Nat.ceil_eq_iff]
  · simp only [List.length_range]
    norm_num [Nat.ceil_eq_iff]

end PahanaEdu
